import Mathlib

/-!
# product-service: event distribution

A shallow embedding of the messaging code of the product catalogue service
(`rabbitmq/rabbitmq.go`, `models/events.go`, `controllers/product_controller.go`,
`consumers/product_consumer.go`, `main.go`) and theorems about it.

Conventions of the embedding:

* a Go `error` is `Option String` (`none` is `nil`), a `(T, error)` pair is a Lean pair
  or an `Except String T`;
* a Go pointer that the source tests against `nil` is an `Option`;
* every call that leaves the process (broker, database, HTTP response, log, metrics)
  is recorded as an `Effect`; a function of the source becomes a function from the
  outcomes of the external calls it makes to the list of effects it performs, in order;
* Go `int` is `Int`; no arithmetic is done on it in the code modelled here;
* a Go `string` is a `String`: the strings that reach this code come out of a JSON
  decoder or a hexadecimal encoder and are valid UTF-8.
-/

namespace ProductService

/-! ## config/config.go -/

/-- The `Config` struct of `config/config.go`. -/
structure Config where
  DBUser : String
  DBPassword : String
  DBHost : String
  DBPort : String
  DBName : String
  JWTSecret : String
  RabbitMQURL : String
  ProductQueue : String
  ProductExchange : String
deriving DecidableEq, Repr

/-! ## Broker handles -/

/-- An `*amqp.Connection`, identified by a number. -/
structure Connection where
  id : Nat
deriving DecidableEq, Repr

/-- An `*amqp.Channel`, identified by a number. -/
structure Channel where
  id : Nat
deriving DecidableEq, Repr

/-- The `RabbitMQ` struct of `rabbitmq/rabbitmq.go`; `Conn` and `Channel` are pointers
and may be nil. -/
structure RabbitMQ where
  Conn : Option Connection
  Channel : Option Channel
  Cfg : Config
deriving DecidableEq, Repr

/-- Outcomes of the broker calls made while connecting and closing. -/
structure Dialer where
  /-- Result of `amqp.Dial(url)`. -/
  dial : String → Except String Connection
  /-- Result of `conn.Channel()`. -/
  openChannel : Connection → Except String Channel
  /-- Result of `conn.Close()`. -/
  closeConn : Connection → Option String
  /-- Result of `ch.Close()`. -/
  closeChannel : Channel → Option String

/-- Function `NewRabbitMQ` of `rabbitmq/rabbitmq.go`. In the branch where `conn.Channel()` fails the
source declares a new `err` with `err := conn.Close()`; both `return nil, err` statements
of that branch read this inner variable. -/
def NewRabbitMQ (w : Dialer) (cfg : Config) : Option RabbitMQ × Option String :=
  match w.dial cfg.RabbitMQURL with
  | .error err => (none, some err)
  | .ok conn =>
    match w.openChannel conn with
    | .error _ =>
      let err := w.closeConn conn
      if err ≠ none then (none, err)
      else (none, err)
    | .ok ch => (some { Conn := some conn, Channel := some ch, Cfg := cfg }, none)

/-- The calls `RabbitMQ.Close` makes on the broker. -/
inductive CloseCall where
  | channelClose (ch : Channel)
  | connClose (c : Connection)
deriving DecidableEq, Repr

/-- Method `RabbitMQ.Close` of `rabbitmq/rabbitmq.go`: the calls it makes, in order. A
failed close makes the method return. -/
def RabbitMQ.Close (w : Dialer) (r : RabbitMQ) : List CloseCall :=
  match r.Channel with
  | some ch =>
    if w.closeChannel ch ≠ none then [.channelClose ch]
    else
      match r.Conn with
      | some c => [.channelClose ch, .connClose c]
      | none => [.channelClose ch]
  | none =>
    match r.Conn with
    | some c => [.connClose c]
    | none => []

/-! ### Sample values -/

/-- A configuration with the defaults of `LoadConfig`. -/
def sampleCfg : Config :=
  { DBUser := "root", DBPassword := "xxxxx", DBHost := "localhost", DBPort := "3306",
    DBName := "ecommerce", JWTSecret := "secret",
    RabbitMQURL := "amqp://admin:rabbitmq@IP:5672/",
    ProductQueue := "product_events", ProductExchange := "product_exchange" }

/-- A broker that accepts the connection, refuses to open a channel, and closes the
connection cleanly; closing a channel reports that it is already closed. -/
def channelRefused : Dialer :=
  { dial := fun _ => .ok ⟨1⟩
    openChannel := fun _ => .error "channel/connection is not open"
    closeConn := fun _ => none
    closeChannel := fun _ => some "channel/connection is not open" }

/-- A live handle: connection 1 and channel 7. -/
def sampleRMQ : RabbitMQ :=
  { Conn := some ⟨1⟩, Channel := some ⟨7⟩, Cfg := sampleCfg }

/-! ## models/product.go -/

/-- A Go `time.Time`: the instant (nanoseconds since the Unix epoch), the offset of its
location (seconds east of UTC) and the monotonic clock reading that values returned by
`time.Now()` carry. -/
structure Time where
  unixNano : Int
  offset : Int
  monotonic : Option Int
deriving DecidableEq, Repr

/-- The zero `time.Time`: January 1, year 1, 00:00:00 UTC. -/
def Time.zero : Time := { unixNano := -62135596800000000000, offset := 0, monotonic := none }

/-- The wall-clock part of a time: what is left once the monotonic reading is dropped,
which is all a text rendering of the time can carry. -/
def Time.wall (t : Time) : Time := { t with monotonic := none }

/-- A Go `float64`, by its IEEE 754 bit pattern. Only the class test that `json.Marshal`
makes on it is modelled; no floating-point arithmetic is. -/
structure Float64 where
  bits : Nat
deriving DecidableEq, Repr

/-- The zero `float64`. -/
def Float64.zero : Float64 := ⟨0⟩

/-- The test `math.IsInf(f, 0) || math.IsNaN(f)`: the exponent field is all ones. -/
def Float64.isInfOrNaN (f : Float64) : Bool := (f.bits / 2 ^ 52) % 2048 == 2047

/-- The `Product` struct. -/
structure Product where
  ID : Int
  Name : String
  Description : String
  Price : Float64
  Stock : Int
  CategoryID : Int
  SKU : String
  ImageURL : String
  CreatedAt : Time
  UpdatedAt : Time
deriving DecidableEq, Repr

/-- The `Category` struct. -/
structure Category where
  ID : Int
  Name : String
  Description : String
  CreatedAt : Time
  UpdatedAt : Time
deriving DecidableEq, Repr

/-- The `ProductAttribute` struct. -/
structure ProductAttribute where
  ID : Int
  Name : String
  Value : String
deriving DecidableEq, Repr

/-- The `ProductImage` struct. -/
structure ProductImage where
  ID : Int
  ImageURL : String
  IsPrimary : Bool
deriving DecidableEq, Repr

/-- The zero `Product`. -/
def Product.zero : Product :=
  { ID := 0, Name := "", Description := "", Price := Float64.zero, Stock := 0, CategoryID := 0,
    SKU := "", ImageURL := "", CreatedAt := Time.zero, UpdatedAt := Time.zero }

/-- The zero `ProductImage`. -/
def ProductImage.zero : ProductImage := { ID := 0, ImageURL := "", IsPrimary := false }

/-- The zero `ProductAttribute`. -/
def ProductAttribute.zero : ProductAttribute := { ID := 0, Name := "", Value := "" }

/-- A product with the monotonic readings of its two times dropped. -/
def Product.wall (p : Product) : Product :=
  { p with CreatedAt := p.CreatedAt.wall, UpdatedAt := p.UpdatedAt.wall }

/-! ## models/events.go -/

/-- Constant `EventProductCreated`. -/
def EventProductCreated : String := "product_created"
/-- Constant `EventProductUpdated`. -/
def EventProductUpdated : String := "product_updated"
/-- Constant `EventProductDeleted`. -/
def EventProductDeleted : String := "product_deleted"
/-- Constant `EventCategoryCreated`. -/
def EventCategoryCreated : String := "category_created"
/-- Constant `EventImageAdded`. -/
def EventImageAdded : String := "image_added"
/-- Constant `EventAttributeAdded`. -/
def EventAttributeAdded : String := "attribute_added"

/-- The six event type constants. -/
def knownEventTypes : List String :=
  [EventProductCreated, EventProductUpdated, EventProductDeleted, EventCategoryCreated,
   EventImageAdded, EventAttributeAdded]

/-- The `ProductEvent` struct. -/
structure ProductEvent where
  EventID : String
  EventType : String
  Timestamp : Time
  ProductID : Int
  ProductData : Product
  CategoryID : Int
  ImageData : ProductImage
  Attribute : ProductAttribute
deriving DecidableEq, Repr

/-- The zero `ProductEvent`, the value of `var event models.ProductEvent`. -/
def ProductEvent.zero : ProductEvent :=
  { EventID := "", EventType := "", Timestamp := Time.zero, ProductID := 0,
    ProductData := Product.zero, CategoryID := 0, ImageData := ProductImage.zero,
    Attribute := ProductAttribute.zero }

/-- An event with the monotonic readings of its times dropped. -/
def ProductEvent.wall (e : ProductEvent) : ProductEvent :=
  { e with Timestamp := e.Timestamp.wall, ProductData := e.ProductData.wall }

/-! ### The wire document

`ToJSON` is `json.Marshal(e)` and the consumer reads with `json.Unmarshal`. Package
`encoding/json` is not part of the repository. What the repository fixes is the shape of
the document: the member names (the struct tags), the member order, which members
`omitempty` drops, and the Go type each member is read into. The embedding therefore
works on the JSON value a byte string denotes; the text of number literals and of
date-times is produced and read by `strconv` and `time`, which are taken as parameters
(`LeafCodec`). -/

/-- A JSON value. Number literals are kept as text, strings as their content. -/
inductive JSON where
  | null
  | bool (b : Bool)
  | num (literal : String)
  | str (s : String)
  | arr (items : List JSON)
  | obj (members : List (String × JSON))

/-- A message body: a byte string, by the JSON value it denotes, or text that is not
JSON at all. -/
inductive Body where
  | json (v : JSON)
  | malformed (raw : String)

/-- The text codecs of the leaves, from packages `strconv` and `time`. -/
structure LeafCodec where
  /-- Decimal text of an `int` (`strconv.AppendInt`). -/
  formatInt : Int → String
  /-- The `int` a number literal is read as, if any (`strconv.ParseInt`, 64 bits). -/
  parseInt : String → Option Int
  /-- Text of a finite `float64` (`strconv.AppendFloat`). -/
  formatFloat : Float64 → String
  /-- The `float64` a number literal is read as, if any (`strconv.ParseFloat`). -/
  parseFloat : String → Option Float64
  /-- RFC 3339 text of a time; `Time.MarshalJSON` fails outside years 0 to 9999. -/
  formatTime : Time → Except String String
  /-- The time an RFC 3339 text is read as, if any (`Time.UnmarshalJSON`). -/
  parseTime : String → Option Time

/-- Marshal a `float64`: `encoding/json` refuses infinities and NaN. -/
def marshalFloat (c : LeafCodec) (f : Float64) : Except String JSON :=
  if f.isInfOrNaN then .error "json: unsupported value"
  else .ok (.num (c.formatFloat f))

/-- Marshal a `time.Time` through its `MarshalJSON`. -/
def marshalTime (c : LeafCodec) (t : Time) : Except String JSON :=
  match c.formatTime t with
  | .ok s => .ok (.str s)
  | .error err => .error err

/-- Marshal a `Product`: one member per field, in declaration order, named by its tag. -/
def marshalProduct (c : LeafCodec) (p : Product) : Except String JSON :=
  match marshalFloat c p.Price, marshalTime c p.CreatedAt, marshalTime c p.UpdatedAt with
  | .ok price, .ok created, .ok updated =>
    .ok (.obj [("id", .num (c.formatInt p.ID)), ("name", .str p.Name),
      ("description", .str p.Description), ("price", price),
      ("stock", .num (c.formatInt p.Stock)), ("category_id", .num (c.formatInt p.CategoryID)),
      ("sku", .str p.SKU), ("image_url", .str p.ImageURL),
      ("created_at", created), ("updated_at", updated)])
  | .error err, _, _ => .error err
  | _, .error err, _ => .error err
  | _, _, .error err => .error err

/-- Marshal a `ProductImage`. -/
def marshalImage (c : LeafCodec) (i : ProductImage) : JSON :=
  .obj [("id", .num (c.formatInt i.ID)), ("image_url", .str i.ImageURL),
    ("is_primary", .bool i.IsPrimary)]

/-- Marshal a `ProductAttribute`. -/
def marshalAttribute (c : LeafCodec) (a : ProductAttribute) : JSON :=
  .obj [("id", .num (c.formatInt a.ID)), ("name", .str a.Name), ("value", .str a.Value)]

/-- Method `ProductEvent.ToJSON`, that is `json.Marshal(e)`. `omitempty` drops `category_id`
when it is 0; on the three struct-typed members it has no effect, a struct is never
empty. Members are written in field order, so `timestamp` is rendered before
`product_data`. -/
def ProductEvent.ToJSON (c : LeafCodec) (e : ProductEvent) : Except String Body :=
  match marshalTime c e.Timestamp, marshalProduct c e.ProductData with
  | .ok ts, .ok pd =>
    .ok (.json (.obj (
      [("event_id", .str e.EventID), ("event_type", .str e.EventType), ("timestamp", ts),
       ("product_id", .num (c.formatInt e.ProductID)), ("product_data", pd)]
      ++ (if e.CategoryID = 0 then [] else [("category_id", .num (c.formatInt e.CategoryID))])
      ++ [("image_data", marshalImage c e.ImageData),
          ("attribute_data", marshalAttribute c e.Attribute)])))
  | .error err, _ => .error err
  | _, .error err => .error err

/-! ### Reading the document back (`json.Unmarshal`) -/

/-- Case folding of one character of a member name: `encoding/json` matches member names
to struct fields case-insensitively; besides the ASCII capitals, the Kelvin sign folds to
`k` and the long s to `s`. -/
def foldChar (ch : Char) : Char :=
  if ch = 'K' then 'k' else if ch = 'ſ' then 's' else ch.toLower

/-- Case folding of a member name. The tags of the structs read here are lower-case
ASCII and pairwise distinct, so a member goes to the field whose tag is its folding. -/
def foldName (s : String) : String := String.mk (s.toList.map foldChar)

/-- Read a JSON value into a Go `string` holding `cur`; `null` leaves it as it is. -/
def decodeString (v : JSON) (cur : String) : Except String String :=
  match v with
  | .null => .ok cur
  | .str s => .ok s
  | _ => .error "json: cannot unmarshal into Go value of type string"

/-- Read a JSON value into a Go `int` holding `cur`. -/
def decodeInt (c : LeafCodec) (v : JSON) (cur : Int) : Except String Int :=
  match v with
  | .null => .ok cur
  | .num literal =>
    match c.parseInt literal with
    | some n => .ok n
    | none => .error "json: cannot unmarshal number into Go value of type int"
  | _ => .error "json: cannot unmarshal into Go value of type int"

/-- Read a JSON value into a Go `float64` holding `cur`. -/
def decodeFloat (c : LeafCodec) (v : JSON) (cur : Float64) : Except String Float64 :=
  match v with
  | .null => .ok cur
  | .num literal =>
    match c.parseFloat literal with
    | some f => .ok f
    | none => .error "json: cannot unmarshal number into Go value of type float64"
  | _ => .error "json: cannot unmarshal into Go value of type float64"

/-- Read a JSON value into a Go `bool` holding `cur`. -/
def decodeBool (v : JSON) (cur : Bool) : Except String Bool :=
  match v with
  | .null => .ok cur
  | .bool b => .ok b
  | _ => .error "json: cannot unmarshal into Go value of type bool"

/-- Read a JSON value into a `time.Time` holding `cur`, through `Time.UnmarshalJSON`. -/
def decodeTime (c : LeafCodec) (v : JSON) (cur : Time) : Except String Time :=
  match v with
  | .null => .ok cur
  | .str s =>
    match c.parseTime s with
    | some t => .ok t
    | none => .error "parsing time: cannot parse"
  | _ => .error "Time.UnmarshalJSON: input is not a JSON string"

/-- Store one member of a JSON object into a `Product`. Unknown members are ignored. -/
def Product.setField (c : LeafCodec) (p : Product) (m : String × JSON) :
    Except String Product :=
  let name := foldName m.1
  if name = "id" then (decodeInt c m.2 p.ID).map (fun x => { p with ID := x })
  else if name = "name" then (decodeString m.2 p.Name).map (fun x => { p with Name := x })
  else if name = "description" then
    (decodeString m.2 p.Description).map (fun x => { p with Description := x })
  else if name = "price" then (decodeFloat c m.2 p.Price).map (fun x => { p with Price := x })
  else if name = "stock" then (decodeInt c m.2 p.Stock).map (fun x => { p with Stock := x })
  else if name = "category_id" then
    (decodeInt c m.2 p.CategoryID).map (fun x => { p with CategoryID := x })
  else if name = "sku" then (decodeString m.2 p.SKU).map (fun x => { p with SKU := x })
  else if name = "image_url" then
    (decodeString m.2 p.ImageURL).map (fun x => { p with ImageURL := x })
  else if name = "created_at" then
    (decodeTime c m.2 p.CreatedAt).map (fun x => { p with CreatedAt := x })
  else if name = "updated_at" then
    (decodeTime c m.2 p.UpdatedAt).map (fun x => { p with UpdatedAt := x })
  else .ok p

/-- Store one member of a JSON object into a `ProductImage`. -/
def ProductImage.setField (c : LeafCodec) (i : ProductImage) (m : String × JSON) :
    Except String ProductImage :=
  let name := foldName m.1
  if name = "id" then (decodeInt c m.2 i.ID).map (fun x => { i with ID := x })
  else if name = "image_url" then
    (decodeString m.2 i.ImageURL).map (fun x => { i with ImageURL := x })
  else if name = "is_primary" then
    (decodeBool m.2 i.IsPrimary).map (fun x => { i with IsPrimary := x })
  else .ok i

/-- Store one member of a JSON object into a `ProductAttribute`. -/
def ProductAttribute.setField (c : LeafCodec) (a : ProductAttribute) (m : String × JSON) :
    Except String ProductAttribute :=
  let name := foldName m.1
  if name = "id" then (decodeInt c m.2 a.ID).map (fun x => { a with ID := x })
  else if name = "name" then (decodeString m.2 a.Name).map (fun x => { a with Name := x })
  else if name = "value" then (decodeString m.2 a.Value).map (fun x => { a with Value := x })
  else .ok a

/-- Read a JSON value into a `Product` holding `cur`: an object is read member by member
into the fields already there, `null` changes nothing, anything else is a type error. -/
def decodeProduct (c : LeafCodec) (v : JSON) (cur : Product) : Except String Product :=
  match v with
  | .null => .ok cur
  | .obj members => members.foldlM (Product.setField c) cur
  | _ => .error "json: cannot unmarshal into Go value of type models.Product"

/-- Read a JSON value into a `ProductImage` holding `cur`. -/
def decodeImage (c : LeafCodec) (v : JSON) (cur : ProductImage) : Except String ProductImage :=
  match v with
  | .null => .ok cur
  | .obj members => members.foldlM (ProductImage.setField c) cur
  | _ => .error "json: cannot unmarshal into Go value of type models.ProductImage"

/-- Read a JSON value into a `ProductAttribute` holding `cur`. -/
def decodeAttribute (c : LeafCodec) (v : JSON) (cur : ProductAttribute) :
    Except String ProductAttribute :=
  match v with
  | .null => .ok cur
  | .obj members => members.foldlM (ProductAttribute.setField c) cur
  | _ => .error "json: cannot unmarshal into Go value of type models.ProductAttribute"

/-- Store one member of a JSON object into a `ProductEvent`. -/
def ProductEvent.setField (c : LeafCodec) (e : ProductEvent) (m : String × JSON) :
    Except String ProductEvent :=
  let name := foldName m.1
  if name = "event_id" then (decodeString m.2 e.EventID).map (fun x => { e with EventID := x })
  else if name = "event_type" then
    (decodeString m.2 e.EventType).map (fun x => { e with EventType := x })
  else if name = "timestamp" then
    (decodeTime c m.2 e.Timestamp).map (fun x => { e with Timestamp := x })
  else if name = "product_id" then
    (decodeInt c m.2 e.ProductID).map (fun x => { e with ProductID := x })
  else if name = "product_data" then
    (decodeProduct c m.2 e.ProductData).map (fun x => { e with ProductData := x })
  else if name = "category_id" then
    (decodeInt c m.2 e.CategoryID).map (fun x => { e with CategoryID := x })
  else if name = "image_data" then
    (decodeImage c m.2 e.ImageData).map (fun x => { e with ImageData := x })
  else if name = "attribute_data" then
    (decodeAttribute c m.2 e.Attribute).map (fun x => { e with Attribute := x })
  else .ok e

/-- The consumer's decoder: `json.Unmarshal(msg.Body, &event)` with `event` the zero
`ProductEvent`. A body that is not JSON is a syntax error. -/
def Unmarshal (c : LeafCodec) (body : Body) : Except String ProductEvent :=
  match body with
  | .malformed _ => .error "invalid character looking for beginning of value"
  | .json .null => .ok ProductEvent.zero
  | .json (.obj members) => members.foldlM (ProductEvent.setField c) ProductEvent.zero
  | .json _ => .error "json: cannot unmarshal into Go value of type models.ProductEvent"

/-! ## Effects -/

/-- The body of a response written with `c.JSON(status, gin.H ...)`. -/
inductive Resp where
  /-- The body `gin.H` with the one key `error`. -/
  | error (msg : String)
  /-- The body `gin.H` with the one key `id`. -/
  | id (n : Int)
  /-- The body `gin.H` with the one key `message`. -/
  | message (msg : String)
deriving DecidableEq, Repr

/-- The fields of `amqp.Publishing` that `PublishEvent` sets. `DeliveryMode` 2 is
`amqp.Persistent`. -/
structure Publishing where
  DeliveryMode : Nat
  ContentType : String
  Body : Body
  Timestamp : Time

/-- Constant `amqp.Persistent`. -/
def Persistent : Nat := 2

/-- A call that leaves the process. -/
inductive Effect where
  /-- A line written with `log.Printf` or `log.Println`. -/
  | log (line : String)
  /-- A response written with `c.JSON`. -/
  | respond (status : Nat) (body : Resp)
  /-- A call `database.DB.QueryRow(query, ...).Scan(...)`. -/
  | dbQueryRow (query : String)
  /-- A call `database.DB.Exec(query, ...)`. -/
  | dbExec (query : String)
  /-- A call `database.DB.Begin()`. -/
  | dbBegin
  /-- A call `tx.Exec(query, ...)`. -/
  | txExec (query : String)
  /-- A call `tx.Rollback()`. -/
  | txRollback
  /-- A call `tx.Commit()`. -/
  | txCommit
  /-- A call `rand.Read`. -/
  | randRead
  /-- A call `time.Now()`. -/
  | timeNow
  /-- A call `Channel.ExchangeDeclare`. -/
  | exchangeDeclare (ch : Channel) (name kind : String)
      (durable autoDelete internal noWait : Bool)
  /-- A call `Channel.QueueDeclare`. -/
  | queueDeclare (ch : Channel) (name : String) (durable autoDelete exclusive noWait : Bool)
  /-- A call `Channel.QueueBind`. -/
  | queueBind (ch : Channel) (name key exchange : String) (noWait : Bool)
  /-- A call `Channel.Publish`. -/
  | publish (ch : Channel) (exchange key : String) (mandatory immediate : Bool)
      (msg : Publishing)
  /-- A call `Channel.Consume`. -/
  | consume (ch : Channel) (queue consumer : String)
      (autoAck exclusive noLocal noWait : Bool)
  /-- A call `msg.Ack(multiple)` on the delivery with this tag. -/
  | ack (tag : Nat) (multiple : Bool)
  /-- A call `controllers.SetRabbitMQ`. -/
  | setRabbitMQ (rmq : RabbitMQ)
  /-- The statement `go consumers.StartProductConsumer(ch, cfg)`. -/
  | goStartProductConsumer (ch : Option Channel)
  /-- A call `RecordProductOperation` or `RecordCategoryOperation`. -/
  | metric (family operation : String) (success : Bool)
  /-- A run-time panic. -/
  | panic (reason : String)

/-- Is the effect a publish? -/
def Effect.isPublish : Effect → Bool
  | .publish .. => true
  | _ => false

/-- Is the effect a successful or failed `tx.Commit()` call? -/
def Effect.isCommit : Effect → Bool
  | .txCommit => true
  | _ => false

/-- Is the effect an acknowledgment? -/
def Effect.isAck : Effect → Bool
  | .ack .. => true
  | _ => false

/-- Is the effect a call on the database or on a transaction? -/
def Effect.isStorage : Effect → Bool
  | .dbQueryRow _ => true
  | .dbExec _ => true
  | .dbBegin => true
  | .txExec _ => true
  | .txRollback => true
  | .txCommit => true
  | _ => false

/-- Is the effect a call `SetRabbitMQ`? -/
def Effect.isSetRabbitMQ : Effect → Bool
  | .setRabbitMQ _ => true
  | _ => false

/-- Is the effect the start of the consumer? -/
def Effect.isConsumerStart : Effect → Bool
  | .goStartProductConsumer _ => true
  | _ => false

/-- The response of a `c.JSON` call, for the other effects nothing. -/
def Effect.response : Effect → Option (Nat × Resp)
  | .respond status body => some (status, body)
  | _ => none

/-- What a handler run writes to the client: its `c.JSON` calls, in order. -/
def responses (trace : List Effect) : List (Nat × Resp) := trace.filterMap Effect.response

/-- The run of a function: the effects performed and the value returned; `result` is
`none` when the function panicked instead of returning. -/
structure Run (α : Type) where
  trace : List Effect
  result : Option α

/-- The panic of a method call through a nil pointer. -/
def nilDereference : String :=
  "runtime error: invalid memory address or nil pointer dereference"

/-! ## rabbitmq/rabbitmq.go, continued -/

/-- Outcomes of the three broker calls of `Setup`. -/
structure Topology where
  exchangeDeclare : Option String
  queueDeclare : Option String
  queueBind : Option String

/-- Method `RabbitMQ.Setup`. The channel is used without a nil test. -/
def RabbitMQ.Setup (w : Topology) (r : RabbitMQ) : Run (Option String) :=
  match r.Channel with
  | none => ⟨[.panic nilDereference], none⟩
  | some ch =>
    let declareExchange :=
      Effect.exchangeDeclare ch r.Cfg.ProductExchange "direct" true false false false
    let declareQueue := Effect.queueDeclare ch r.Cfg.ProductQueue true false false false
    let bind := Effect.queueBind ch r.Cfg.ProductQueue "" r.Cfg.ProductExchange false
    match w.exchangeDeclare with
    | some err => ⟨[declareExchange], some (some err)⟩
    | none =>
      match w.queueDeclare with
      | some err => ⟨[declareExchange, declareQueue], some (some err)⟩
      | none =>
        match w.queueBind with
        | some err => ⟨[declareExchange, declareQueue, bind], some (some err)⟩
        | none => ⟨[declareExchange, declareQueue, bind], some none⟩

/-- Method `RabbitMQ.PublishEvent`; `now` is what `time.Now()` returns and `publishErr` what
`Channel.Publish` returns. -/
def RabbitMQ.PublishEvent (r : RabbitMQ) (now : Time) (publishErr : Option String)
    (body : Body) : Run (Option String) :=
  let msg : Publishing :=
    { DeliveryMode := Persistent, ContentType := "application/json", Body := body,
      Timestamp := now }
  match r.Channel with
  | none => ⟨[.timeNow, .panic nilDereference], none⟩
  | some ch =>
    ⟨[.timeNow, .publish ch r.Cfg.ProductExchange "" false false msg], some publishErr⟩

/-! ## controllers/product_controller.go -/

/-- The dynamic value of the `data interface{}` argument of `sendProductEvent`. -/
inductive Data where
  | nil
  | product (p : Product)
  | int (n : Int)
  | image (i : ProductImage)
  | productAttribute (a : ProductAttribute)
  /-- A value of any other dynamic type. -/
  | other (description : String)
deriving DecidableEq, Repr

/-- What the messaging calls of one request see: the package variable `rabbitMQ` and the
outcomes of the external calls `sendProductEvent` makes. -/
structure Messaging where
  /-- The package variable `rabbitMQ`. -/
  rabbitMQ : Option RabbitMQ
  /-- The text codecs used by `json.Marshal`. -/
  codec : LeafCodec
  /-- The sixteen bytes `rand.Read` leaves in the buffer. -/
  randomBytes : List Nat
  /-- What `time.Now()` returns in `sendProductEvent`. -/
  now : Time
  /-- What `time.Now()` returns in `PublishEvent`. -/
  publishNow : Time
  /-- What `Channel.Publish` returns. -/
  publishErr : Option String

/-- The two lower-case hexadecimal digits of a byte, as `hex.EncodeToString` writes them. -/
def hexByte (b : Nat) : List Char :=
  let digit (d : Nat) : Char := "0123456789abcdef".toList.getD d '0'
  [digit (b % 256 / 16), digit (b % 16)]

/-- Function `generateEventID`: the hexadecimal text of the sixteen random bytes. -/
def generateEventID (randomBytes : List Nat) : String :=
  String.mk (((List.range 16).map (fun i => randomBytes.getD i 0)).flatMap hexByte)

/-- The event `sendProductEvent` builds (lines 39 to 64 of the controller): the four
header fields, then at most one payload field, chosen by the `switch` on `eventType`
and set only when `data` has the dynamic type that case asserts. -/
def builtEvent (eventID : String) (now : Time) (eventType : String) (productID : Int)
    (data : Data) : ProductEvent :=
  let event : ProductEvent :=
    { ProductEvent.zero with
      EventID := eventID, EventType := eventType, Timestamp := now, ProductID := productID }
  if eventType = EventProductCreated ∨ eventType = EventProductUpdated then
    match data with
    | .product product => { event with ProductData := product }
    | _ => event
  else if eventType = EventCategoryCreated then
    match data with
    | .int categoryID => { event with CategoryID := categoryID }
    | _ => event
  else if eventType = EventImageAdded then
    match data with
    | .image image => { event with ImageData := image }
    | _ => event
  else if eventType = EventAttributeAdded then
    match data with
    | .productAttribute attr => { event with Attribute := attr }
    | _ => event
  else event

/-- Function `sendProductEvent`. It returns nothing; `result` tells whether it returned. -/
def sendProductEvent (mq : Messaging) (eventType : String) (productID : Int) (data : Data) :
    Run Unit :=
  match mq.rabbitMQ with
  | none => ⟨[], some ()⟩
  | some rmq =>
    let event := builtEvent (generateEventID mq.randomBytes) mq.now eventType productID data
    match event.ToJSON mq.codec with
    | .error err =>
      ⟨[.randRead, .timeNow, .log ("Failed to marshal event: " ++ err)], some ()⟩
    | .ok eventBody =>
      let pub := rmq.PublishEvent mq.publishNow mq.publishErr eventBody
      match pub.result with
      | none => ⟨[.randRead, .timeNow] ++ pub.trace, none⟩
      | some (some err) =>
        ⟨[.randRead, .timeNow] ++ pub.trace ++
          [.log ("Failed to publish " ++ eventType ++ " event: " ++ err)], some ()⟩
      | some none => ⟨[.randRead, .timeNow] ++ pub.trace, some ()⟩

/-- What a request carries, as the handlers read it. -/
structure Request where
  /-- Result of `strconv.Atoi(c.Param("id"))`. -/
  idParam : Except String Int
  /-- Result of `c.ShouldBindJSON(&category)`. -/
  bindCategory : Except String Category
  /-- Result of `c.ShouldBindJSON(&product)`. -/
  bindProduct : Except String Product
  /-- Result of `c.ShouldBindJSON(&image)`. -/
  bindImage : Except String ProductImage
  /-- Result of `c.ShouldBindJSON(&attribute)`. -/
  bindAttribute : Except String ProductAttribute

/-- Outcomes of the database calls of one request. -/
structure Storage where
  /-- Result of the `SELECT EXISTS` query: the scan error, or the flag. -/
  existsRow : Except String Bool
  /-- Result of `database.DB.Begin()`. -/
  beginTx : Option String
  /-- Result of the `Exec` call: its error, or what `LastInsertId` returns. -/
  exec : Except String Int
  /-- Result of `tx.Rollback()`. -/
  rollback : Option String
  /-- Result of `tx.Commit()`. -/
  commit : Option String

/-- The value of `c.Writer.Status()` after a run: the status of the first `c.JSON` call, 200 when
nothing was written. -/
def writerStatus (trace : List Effect) : Nat :=
  match responses trace with
  | [] => 200
  | (status, _) :: _ => status

/-- The deferred function of every handler: it runs when the handler body is left, also
by a panic, and records whether the status is a 2xx. -/
def withMetric (family operation : String) (body : List Effect) : List Effect :=
  body ++ [.metric family operation
    (decide (writerStatus body ≥ 200) && decide (writerStatus body < 300))]

/-- The statement `if rabbitMQ != nil { ...; sendProductEvent(...) }` followed by the
rest of the handler body, which runs unless the call panicked. -/
def notifyThen (mq : Messaging) (eventType : String) (productID : Int) (data : Data)
    (rest : List Effect) : List Effect :=
  match mq.rabbitMQ with
  | none => rest
  | some _ =>
    let sent := sendProductEvent mq eventType productID data
    match sent.result with
    | some _ => sent.trace ++ rest
    | none => sent.trace

/-- The handler `CreateCategory`. -/
def CreateCategory (rq : Request) (db : Storage) (mq : Messaging) : List Effect :=
  withMetric "category" "create" (
    match rq.bindCategory with
    | .error err => [.respond 400 (.error err)]
    | .ok _ =>
      .dbExec "INSERT INTO categories (name, description) VALUES (?, ?)" ::
      match db.exec with
      | .error _ => [.respond 500 (.error "Failed to create category")]
      | .ok categoryID =>
        .respond 201 (.id categoryID) ::
        notifyThen mq EventCategoryCreated 0 (.int categoryID)
          [.respond 201 (.id categoryID)])

/-- The handler `CreateProduct`. The transaction it begins is never committed. -/
def CreateProduct (rq : Request) (db : Storage) (mq : Messaging) : List Effect :=
  withMetric "product" "create" (
    match rq.bindProduct with
    | .error err => [.respond 400 (.error err)]
    | .ok product =>
      .dbQueryRow "SELECT EXISTS(SELECT 1 FROM categories WHERE id = ?)" ::
      match db.existsRow with
      | .error _ => [.respond 400 (.error "Invalid category ID")]
      | .ok false => [.respond 400 (.error "Invalid category ID")]
      | .ok true =>
        .dbBegin ::
        match db.beginTx with
        | some _ => [.respond 500 (.error "Could not start transaction")]
        | none =>
          .txExec "INSERT INTO products" ::
          match db.exec with
          | .error _ =>
            .txRollback ::
            match db.rollback with
            | some _ => []
            | none => [.respond 500 (.error "Failed to create product")]
          | .ok productID =>
            .respond 201 (.id productID) ::
            notifyThen mq EventProductCreated productID
              (.product { product with ID := productID })
              [.respond 201 (.id productID)])

/-- The handler `UpdateProduct`. -/
def UpdateProduct (rq : Request) (db : Storage) (mq : Messaging) : List Effect :=
  withMetric "product" "update" (
    match rq.idParam with
    | .error _ => [.respond 400 (.error "Invalid product ID")]
    | .ok productID =>
      match rq.bindProduct with
      | .error err => [.respond 400 (.error err)]
      | .ok product =>
        .dbBegin ::
        match db.beginTx with
        | some _ => [.respond 500 (.error "Could not start transaction")]
        | none =>
          .txExec "UPDATE products SET ... WHERE id = ?" ::
          match db.exec with
          | .error _ =>
            .txRollback ::
            match db.rollback with
            | some _ => []
            | none => [.respond 500 (.error "Failed to update product")]
          | .ok _ =>
            .txCommit ::
            match db.commit with
            | some _ => [.respond 500 (.error "Transaction commit failed")]
            | none =>
              .respond 200 (.message "Product updated") ::
              notifyThen mq EventProductUpdated productID
                (.product { product with ID := productID })
                [.respond 200 (.message "Product updated")])

/-- The handler `DeleteProduct`. -/
def DeleteProduct (rq : Request) (db : Storage) (mq : Messaging) : List Effect :=
  withMetric "product" "delete" (
    match rq.idParam with
    | .error _ => [.respond 400 (.error "Invalid product ID")]
    | .ok productID =>
      .dbExec "UPDATE products SET deleted_at = NOW() WHERE id = ?" ::
      match db.exec with
      | .error _ => [.respond 500 (.error "Failed to delete product")]
      | .ok _ =>
        .respond 200 (.message "Product deleted") ::
        notifyThen mq EventProductDeleted productID .nil
          [.respond 200 (.message "Product deleted")])

/-- The handler `AddProductImage`. -/
def AddProductImage (rq : Request) (db : Storage) (mq : Messaging) : List Effect :=
  withMetric "product" "add_image" (
    match rq.idParam with
    | .error _ => [.respond 400 (.error "Invalid product ID")]
    | .ok productID =>
      match rq.bindImage with
      | .error err => [.respond 400 (.error err)]
      | .ok image =>
        .dbQueryRow
          "SELECT EXISTS(SELECT 1 FROM products WHERE id = ? AND deleted_at IS NULL)" ::
        match db.existsRow with
        | .error _ => [.respond 404 (.error "Product not found")]
        | .ok false => [.respond 404 (.error "Product not found")]
        | .ok true =>
          .dbExec "INSERT INTO product_images (product_id, image_url, is_primary)" ::
          match db.exec with
          | .error _ => [.respond 500 (.error "Failed to add image")]
          | .ok imageID =>
            .respond 201 (.id imageID) ::
            notifyThen mq EventImageAdded productID (.image { image with ID := imageID })
              [.respond 201 (.id imageID)])

/-- The handler `AddProductAttribute`. -/
def AddProductAttribute (rq : Request) (db : Storage) (mq : Messaging) : List Effect :=
  withMetric "product" "add_attribute" (
    match rq.idParam with
    | .error _ => [.respond 400 (.error "Invalid product ID")]
    | .ok productID =>
      match rq.bindAttribute with
      | .error err => [.respond 400 (.error err)]
      | .ok attr =>
        .dbQueryRow
          "SELECT EXISTS(SELECT 1 FROM products WHERE id = ? AND deleted_at IS NULL)" ::
        match db.existsRow with
        | .error _ => [.respond 404 (.error "Product not found")]
        | .ok false => [.respond 404 (.error "Product not found")]
        | .ok true =>
          .dbExec "INSERT INTO product_attributes (product_id, name, value)" ::
          match db.exec with
          | .error _ => [.respond 500 (.error "Failed to add attribute")]
          | .ok attrID =>
            .respond 201 (.id attrID) ::
            notifyThen mq EventAttributeAdded productID
              (.productAttribute { attr with ID := attrID })
              [.respond 201 (.id attrID)])

/-- The six mutation handlers. -/
inductive Handler where
  | createCategory
  | createProduct
  | updateProduct
  | deleteProduct
  | addProductImage
  | addProductAttribute
deriving DecidableEq, Repr

/-- The run of a mutation handler. -/
def Handler.run (h : Handler) (rq : Request) (db : Storage) (mq : Messaging) : List Effect :=
  match h with
  | .createCategory => CreateCategory rq db mq
  | .createProduct => CreateProduct rq db mq
  | .updateProduct => UpdateProduct rq db mq
  | .deleteProduct => DeleteProduct rq db mq
  | .addProductImage => AddProductImage rq db mq
  | .addProductAttribute => AddProductAttribute rq db mq

/-! ## consumers/product_consumer.go -/

/-- An `amqp.Delivery`: its delivery tag and its body. -/
structure Delivery where
  DeliveryTag : Nat
  Body : Body

/-- Function `processProductMessage`: the log lines it writes. `%d` prints an `int` in decimal. -/
def processProductMessage (c : LeafCodec) (msg : Delivery) : List Effect :=
  match Unmarshal c msg.Body with
  | .error err => [.log ("Failed to unmarshal event: " ++ err)]
  | .ok event =>
    if event.EventType = EventProductCreated then
      [.log ("New product created: " ++ toString event.ProductID ++ " - "
        ++ event.ProductData.Name)]
    else if event.EventType = EventProductUpdated then
      [.log ("Product updated: " ++ toString event.ProductID)]
    else if event.EventType = EventProductDeleted then
      [.log ("Product deleted: " ++ toString event.ProductID)]
    else if event.EventType = EventCategoryCreated then
      [.log ("New category created: " ++ toString event.CategoryID)]
    else if event.EventType = EventImageAdded then
      [.log ("Image added to product " ++ toString event.ProductID ++ ": "
        ++ event.ImageData.ImageURL)]
    else if event.EventType = EventAttributeAdded then
      [.log ("Attribute added to product " ++ toString event.ProductID ++ ": "
        ++ event.Attribute.Name ++ "=" ++ event.Attribute.Value)]
    else
      [.log ("Unknown event type: " ++ event.EventType)]

/-- The loop `for msg := range msgs` of `StartProductConsumer`, on the deliveries the
channel hands over before it is closed. -/
def consumerLoop (c : LeafCodec) : List Delivery → List Effect
  | [] => []
  | msg :: rest =>
    processProductMessage c msg ++ .ack msg.DeliveryTag false :: consumerLoop c rest

/-- Function `StartProductConsumer`; `consumed` is the result of `ch.Consume`: an error, or the
deliveries that arrive on the returned Go channel. -/
def StartProductConsumer (c : LeafCodec) (consumed : Except String (List Delivery))
    (ch : Channel) (cfg : Config) : List Effect :=
  .consume ch cfg.ProductQueue "product-service" false false false false ::
  match consumed with
  | .error err => [.log ("Failed to register consumers: " ++ err)]
  | .ok msgs => consumerLoop c msgs

/-! ## main.go -/

/-- The state of the messaging integration after start-up. -/
structure Boot where
  /-- The effects of the messaging block of `main`. -/
  trace : List Effect
  /-- The package variable `controllers.rabbitMQ`; it is nil until `SetRabbitMQ` runs. -/
  rabbitMQ : Option RabbitMQ

/-- The messaging block of `main` (lines 28 to 45). `rmq.Setup()` is called on whatever
`NewRabbitMQ` returned with a nil error, also on a nil pointer. -/
def mainMessaging (w : Dialer) (t : Topology) (cfg : Config) : Boot :=
  match NewRabbitMQ w cfg with
  | (_, some err) =>
    { trace := [.log ("RabbitMQ initialization failed: " ++ err
        ++ " (proceeding without messaging)")],
      rabbitMQ := none }
  | (none, none) => { trace := [.panic nilDereference], rabbitMQ := none }
  | (some rmq, none) =>
    let setup := rmq.Setup t
    match setup.result with
    | none => { trace := setup.trace, rabbitMQ := none }
    | some (some err) =>
      { trace := setup.trace ++ [.log ("Failed to setup RabbitMQ queues: " ++ err)],
        rabbitMQ := none }
    | some none =>
      { trace := setup.trace ++
          [.setRabbitMQ rmq, .log "RabbitMQ integration enabled",
           .goStartProductConsumer rmq.Channel],
        rabbitMQ := some rmq }

/-! ### More sample values -/

/-- A codec defined on the few values the examples use. -/
def sampleCodec : LeafCodec :=
  { formatInt := fun n => if n = 0 then "0" else if n = 1 then "1" else
      if n = 5 then "5" else if n = 42 then "42" else "?"
    parseInt := fun s => if s = "0" then some 0 else if s = "1" then some 1 else
      if s = "5" then some 5 else if s = "42" then some 42 else none
    formatFloat := fun f => if f = Float64.zero then "0" else
      if f = ⟨4621813488089437307⟩ then "9.99" else "?"
    parseFloat := fun s => if s = "0" then some Float64.zero else
      if s = "9.99" then some ⟨4621813488089437307⟩ else none
    formatTime := fun t =>
      if t.wall = Time.zero then .ok "0001-01-01T00:00:00Z"
      else if t.wall = ⟨1700000000000000000, 0, none⟩ then .ok "2023-11-14T22:13:20Z"
      else .error "Time.MarshalJSON: year outside of range [0,9999]"
    parseTime := fun s =>
      if s = "0001-01-01T00:00:00Z" then some Time.zero
      else if s = "2023-11-14T22:13:20Z" then some ⟨1700000000000000000, 0, none⟩
      else none }

/-- A codec under which no time can be rendered, so that `ToJSON` always fails. -/
def failingCodec : LeafCodec :=
  { sampleCodec with formatTime := fun _ => .error "Time.MarshalJSON: year outside of range" }

/-- The product of the end-to-end scenario: Widget, price 9.99, stock 5, category 1. -/
def widget : Product :=
  { Product.zero with
    Name := "Widget", Description := "A widget", Price := ⟨4621813488089437307⟩, Stock := 5,
    CategoryID := 1 }

/-- A clock reading of `time.Now()`. -/
def sampleNow : Time := ⟨1700000000000000000, 0, some 12345⟩

/-- Messaging enabled, the broker accepting every publish. -/
def sampleMessaging : Messaging :=
  { rabbitMQ := some sampleRMQ, codec := sampleCodec, randomBytes := [], now := sampleNow,
    publishNow := sampleNow, publishErr := none }

/-- A request whose body binds to the widget and whose `id` parameter is 42. -/
def sampleRequest : Request :=
  { idParam := .ok 42
    bindCategory := .ok ⟨0, "Tools", "", Time.zero, Time.zero⟩
    bindProduct := .ok widget
    bindImage := .ok ⟨0, "http://img/1.png", true⟩
    bindAttribute := .ok ⟨0, "colour", "red"⟩ }

/-- A database on which every call succeeds; inserts return identifier 42. -/
def sampleStorage : Storage :=
  { existsRow := .ok true, beginTx := none, exec := .ok 42, rollback := none, commit := none }

/-- A broker on which every call succeeds. -/
def healthyDialer : Dialer :=
  { dial := fun _ => .ok ⟨1⟩, openChannel := fun _ => .ok ⟨7⟩, closeConn := fun _ => none,
    closeChannel := fun _ => none }

/-- A broker on which every declaration succeeds. -/
def healthyTopology : Topology :=
  { exchangeDeclare := none, queueDeclare := none, queueBind := none }

/-- A broker that refuses the queue binding. -/
def bindRefused : Topology :=
  { exchangeDeclare := none, queueDeclare := none, queueBind := some "access refused" }

/-! ### Values that survive the wire -/

/-- The codec reads back the literal it writes for this `int`. -/
def LeafCodec.intOK (c : LeafCodec) (n : Int) : Bool := c.parseInt (c.formatInt n) == some n

/-- The `float64` is finite and the codec reads back the literal it writes for it. -/
def LeafCodec.floatOK (c : LeafCodec) (f : Float64) : Bool :=
  !f.isInfOrNaN && c.parseFloat (c.formatFloat f) == some f

/-- The time can be rendered, and the codec reads the rendering back as the same instant
in the same zone. -/
def LeafCodec.timeOK (c : LeafCodec) (t : Time) : Bool :=
  match c.formatTime t with
  | .ok s => c.parseTime s == some t.wall
  | .error _ => false

/-- Every number and time of the product survives its text form. -/
def Product.Encodable (c : LeafCodec) (p : Product) : Bool :=
  c.intOK p.ID && c.floatOK p.Price && c.intOK p.Stock && c.intOK p.CategoryID &&
  c.timeOK p.CreatedAt && c.timeOK p.UpdatedAt

/-- A valid event: every number and time in it survives its text form. This is the
contract of `strconv` and `time` for 64-bit integers, finite floats and times in the
years 0 to 9999. -/
def ProductEvent.Encodable (c : LeafCodec) (e : ProductEvent) : Bool :=
  c.timeOK e.Timestamp && c.intOK e.ProductID && e.ProductData.Encodable c &&
  (e.CategoryID == 0 || c.intOK e.CategoryID) && c.intOK e.ImageData.ID &&
  c.intOK e.Attribute.ID

/-- The `product_created` event of the end-to-end scenario. -/
def widgetCreated : ProductEvent :=
  builtEvent "00112233445566778899aabbccddeeff" sampleNow EventProductCreated 42
    (.product { widget with ID := 42 })

/-- A delivery whose body is not JSON. -/
def poisonDelivery : Delivery := { DeliveryTag := 3, Body := .malformed "not json" }

/-- A delivery whose body is an event of a kind this consumer does not know. -/
def futureDelivery : Delivery :=
  { DeliveryTag := 4,
    Body := .json (.obj [("event_id", .str "ab"), ("event_type", .str "product_archived")]) }

/-- A delivery of a `product_deleted` event for product 42. -/
def deletedDelivery : Delivery :=
  { DeliveryTag := 5,
    Body := .json (.obj [("event_type", .str "product_deleted"), ("product_id", .num "42")]) }

/-- Is the effect a log line? -/
def Effect.isLog : Effect → Bool
  | .log _ => true
  | _ => false

/-! ## utils/pagination.go -/

/-- The `Pagination` struct of `models/product.go`. Its `binding` tags declare `min=1` on
`Page` and `min=1,max=100` on `PageSize`. -/
structure Pagination where
  Page : Int
  PageSize : Int
deriving DecidableEq, Repr

/-- The constraints the `binding` tags of `Pagination` declare. -/
def Pagination.conforms (p : Pagination) : Bool :=
  decide (1 ≤ p.Page) && decide (1 ≤ p.PageSize) && decide (p.PageSize ≤ 100)

/-- The value a 64-bit Go `int` holds after an arithmetic result `n`: two's-complement
wrap-around. -/
def wrapInt (n : Int) : Int := (n + 2 ^ 63) % 2 ^ 64 - 2 ^ 63

/-- Function `strconv.Atoi` on a 64-bit platform: an optional sign followed by one or
more decimal digits. On a syntax error the value is 0; when the digits do not fit, the
value is the nearest bound of `int`. The error is given by its kind only. -/
def Atoi (s : String) : Int × Option String :=
  let chars := s.toList
  let neg := chars.head? = some '-'
  let digits := if chars.head? = some '-' ∨ chars.head? = some '+' then chars.tail else chars
  if digits = [] then (0, some "invalid syntax")
  else if digits.all Char.isDigit then
    let n : Int := digits.foldl (fun acc ch => acc * 10 + ((ch.toNat : Int) - 48)) 0
    if neg then
      if n > 2 ^ 63 then (-2 ^ 63, some "value out of range") else (-n, none)
    else
      if n ≥ 2 ^ 63 then (2 ^ 63 - 1, some "value out of range") else (n, none)
  else (0, some "invalid syntax")

/-- The call `c.DefaultQuery(key, defaultValue)` on a request whose parsed query is
`query`: the first value given for the key, the default when the key is absent. -/
def DefaultQuery (query : List (String × String)) (key defaultValue : String) : String :=
  match query.lookup key with
  | some value => value
  | none => defaultValue

/-- Function `ParsePagination`: both `Atoi` errors are discarded. -/
def ParsePagination (query : List (String × String)) : Pagination :=
  let page := (Atoi (DefaultQuery query "page" "1")).1
  let pageSize := (Atoi (DefaultQuery query "page_size" "10")).1
  { Page := page, PageSize := pageSize }

/-- Function `CalculateTotalPages`; `none` is the run-time panic of an integer division
by zero. Go's `/` and `%` truncate toward zero. -/
def CalculateTotalPages (total pageSize : Int) : Option Int :=
  if total = 0 then some 1
  else if pageSize = 0 then none
  else
    let pages := wrapInt (Int.tdiv total pageSize)
    if Int.tmod total pageSize > 0 then some (wrapInt (pages + 1))
    else some pages

/-- The `OFFSET` argument `ListProducts` passes to its query:
`(pagination.Page-1)*pagination.PageSize`. -/
def paginationOffset (p : Pagination) : Int := wrapInt (wrapInt (p.Page - 1) * p.PageSize)

/-! # Theorems -/

/-! ## Connection lifecycle -/

/-- The conforming paths of `NewRabbitMQ`: when the dial fails it returns that error and
no handle; when the dial and the channel both open it returns a handle with `Conn` and
`Channel` set and a nil error. -/
theorem NewRabbitMQ_dial_or_success (w : Dialer) (cfg : Config) :
    (∀ err, w.dial cfg.RabbitMQURL = .error err → NewRabbitMQ w cfg = (none, some err)) ∧
    (∀ conn ch, w.dial cfg.RabbitMQURL = .ok conn → w.openChannel conn = .ok ch →
      NewRabbitMQ w cfg = (some { Conn := some conn, Channel := some ch, Cfg := cfg }, none)) := by
  constructor
  · intro err h
    simp [NewRabbitMQ, h]
  · intro conn ch h1 h2
    simp [NewRabbitMQ, h1, h2]

/-- C1, the failing path: whenever the dial succeeds, the channel cannot be opened and
the clean-up close of the connection succeeds, `NewRabbitMQ` returns a nil handle
together with a nil error. -/
theorem NewRabbitMQ_channel_failure_returns_nil_nil (w : Dialer) (cfg : Config)
    (conn : Connection) (err : String) (hdial : w.dial cfg.RabbitMQURL = .ok conn)
    (hch : w.openChannel conn = .error err) (hclose : w.closeConn conn = none) :
    NewRabbitMQ w cfg = (none, none) := by
  simp [NewRabbitMQ, hdial, hch, hclose]

/-- C1 at a concrete broker: the connection opens, the channel is refused, the close
succeeds, and `NewRabbitMQ` reports no error although it returns no handle. -/
theorem NewRabbitMQ_channel_failure_witness :
    channelRefused.dial sampleCfg.RabbitMQURL = .ok ⟨1⟩ ∧
    channelRefused.openChannel ⟨1⟩ = .error "channel/connection is not open" ∧
    channelRefused.closeConn ⟨1⟩ = none ∧
    NewRabbitMQ channelRefused sampleCfg = (none, none) :=
  ⟨rfl, rfl, rfl,
    NewRabbitMQ_channel_failure_returns_nil_nil channelRefused sampleCfg ⟨1⟩
      "channel/connection is not open" rfl rfl rfl⟩

/-- C3, the failing path: on a handle with channel `ch` and connection `c`, when closing
the channel reports an error `Close` makes that one call and returns; the connection is
not closed. -/
theorem Close_skips_connection_on_channel_error (w : Dialer) (cfg : Config) (ch : Channel)
    (c : Connection) (err : String) (h : w.closeChannel ch = some err) :
    RabbitMQ.Close w { Conn := some c, Channel := some ch, Cfg := cfg } = [.channelClose ch] := by
  simp [RabbitMQ.Close, h]

/-- C3 at a concrete handle: the channel is already closed, its close reports so, and the
connection close is never attempted. -/
theorem Close_skips_connection_witness :
    channelRefused.closeChannel ⟨7⟩ = some "channel/connection is not open" ∧
    RabbitMQ.Close channelRefused sampleRMQ = [.channelClose ⟨7⟩] ∧
    CloseCall.connClose ⟨1⟩ ∉ RabbitMQ.Close channelRefused sampleRMQ :=
  ⟨rfl,
    Close_skips_connection_on_channel_error channelRefused sampleCfg ⟨7⟩ ⟨1⟩
      "channel/connection is not open" rfl,
    by decide⟩

/-- The conforming path of `Close`: when closing the channel succeeds, `Close` closes the
channel first and then the connection. -/
theorem Close_order_on_success (w : Dialer) (cfg : Config) (ch : Channel) (c : Connection)
    (h : w.closeChannel ch = none) :
    RabbitMQ.Close w { Conn := some c, Channel := some ch, Cfg := cfg }
      = [.channelClose ch, .connClose c] := by
  simp [RabbitMQ.Close, h]

/-! ## The producer side -/

/-- Every effect of `sendProductEvent` is a read of the random source or of the clock, a
publish, a log line or a panic. -/
theorem sendProductEvent_effects (mq : Messaging) (eventType : String) (productID : Int)
    (data : Data) :
    ∀ e ∈ (sendProductEvent mq eventType productID data).trace,
      e.isStorage = false ∧ e.response = none := by
  intro e he
  cases h1 : mq.rabbitMQ with
  | none => simp [sendProductEvent, h1] at he
  | some rmq =>
    cases h2 : (builtEvent (generateEventID mq.randomBytes) mq.now eventType productID
        data).ToJSON mq.codec with
    | error err =>
      simp [sendProductEvent, h1, h2] at he
      rcases he with rfl | rfl | rfl <;> simp [Effect.isStorage, Effect.response]
    | ok body =>
      cases h3 : rmq.Channel with
      | none =>
        simp [sendProductEvent, h1, h2, RabbitMQ.PublishEvent, h3] at he
        rcases he with rfl | rfl | rfl | rfl <;> simp [Effect.isStorage, Effect.response]
      | some ch =>
        cases h4 : mq.publishErr with
        | none =>
          simp [sendProductEvent, h1, h2, RabbitMQ.PublishEvent, h3, h4] at he
          rcases he with rfl | rfl | rfl | rfl <;> simp [Effect.isStorage, Effect.response]
        | some err =>
          simp [sendProductEvent, h1, h2, RabbitMQ.PublishEvent, h3, h4] at he
          rcases he with rfl | rfl | rfl | rfl | rfl <;>
            simp [Effect.isStorage, Effect.response]

/-- With a handle whose channel is set, `sendProductEvent` returns. -/
theorem sendProductEvent_returns (mq : Messaging) (eventType : String) (productID : Int)
    (data : Data) (h : ∀ rmq, mq.rabbitMQ = some rmq → rmq.Channel ≠ none) :
    (sendProductEvent mq eventType productID data).result = some () := by
  cases h1 : mq.rabbitMQ with
  | none => simp [sendProductEvent, h1]
  | some rmq =>
    have hch := h rmq h1
    cases h3 : rmq.Channel with
    | none => exact absurd h3 hch
    | some ch =>
      cases h2 : (builtEvent (generateEventID mq.randomBytes) mq.now eventType productID
          data).ToJSON mq.codec with
      | error err => simp [sendProductEvent, h1, h2]
      | ok body =>
        cases h4 : mq.publishErr <;>
          simp [sendProductEvent, h1, h2, RabbitMQ.PublishEvent, h3, h4]

/-- The responses of a concatenation. -/
theorem responses_append (a b : List Effect) : responses (a ++ b) = responses a ++ responses b := by
  simp [responses, List.filterMap_append]

/-- The statement that notifies the broker writes nothing to the client: with a nil
handle or a handle whose channel is set, the responses are those of the rest of the
handler body. -/
theorem notifyThen_responses (mq : Messaging) (eventType : String) (productID : Int)
    (data : Data) (rest : List Effect)
    (h : ∀ rmq, mq.rabbitMQ = some rmq → rmq.Channel ≠ none) :
    responses (notifyThen mq eventType productID data rest) = responses rest := by
  have hret := sendProductEvent_returns mq eventType productID data h
  have heff := sendProductEvent_effects mq eventType productID data
  have hnil : responses (sendProductEvent mq eventType productID data).trace = [] := by
    simp only [responses, List.filterMap_eq_nil_iff]
    intro e he
    exact (heff e he).2
  unfold notifyThen
  cases h1 : mq.rabbitMQ with
  | none => rfl
  | some rmq => simp [hret, responses_append, hnil]

/-- The statement that notifies the broker makes no database call. -/
theorem notifyThen_storage (mq : Messaging) (eventType : String) (productID : Int)
    (data : Data) (rest : List Effect)
    (h : ∀ rmq, mq.rabbitMQ = some rmq → rmq.Channel ≠ none) :
    (notifyThen mq eventType productID data rest).filter Effect.isStorage
      = rest.filter Effect.isStorage := by
  have hret := sendProductEvent_returns mq eventType productID data h
  have heff := sendProductEvent_effects mq eventType productID data
  have hnil : (sendProductEvent mq eventType productID data).trace.filter Effect.isStorage
      = [] := by
    simp only [List.filter_eq_nil_iff]
    intro e he
    simp [(heff e he).1]
  unfold notifyThen
  cases h1 : mq.rabbitMQ with
  | none => rfl
  | some rmq => simp [hret, List.filter_append, hnil]

/-- With a nil handle the notifying statement does nothing. -/
theorem notifyThen_disabled (mq : Messaging) (eventType : String) (productID : Int)
    (data : Data) (rest : List Effect) :
    notifyThen { mq with rabbitMQ := none } eventType productID data rest = rest := rfl

/-- The deferred metric call adds no response and no database call, and its argument
depends on the responses of the body only. -/
theorem withMetric_congr (family operation : String) (b b' : List Effect)
    (h1 : responses b = responses b')
    (h2 : b.filter Effect.isStorage = b'.filter Effect.isStorage) :
    responses (withMetric family operation b) = responses (withMetric family operation b') ∧
    (withMetric family operation b).filter Effect.isStorage
      = (withMetric family operation b').filter Effect.isStorage := by
  constructor
  · simp only [withMetric, responses_append, writerStatus, h1]
  · simp [withMetric, List.filter_append, h2, Effect.isStorage]

/-- What a handler writes to the client, and what it asks of the database, is what it
would with messaging disabled. -/
theorem handler_run_messaging_free (h : Handler) (rq : Request) (db : Storage)
    (mq : Messaging) (hlive : ∀ rmq, mq.rabbitMQ = some rmq → rmq.Channel ≠ none) :
    responses (h.run rq db mq) = responses (h.run rq db { mq with rabbitMQ := none }) ∧
    (h.run rq db mq).filter Effect.isStorage
      = (h.run rq db { mq with rabbitMQ := none }).filter Effect.isStorage := by
  have hr := fun ty pid data rest => notifyThen_responses mq ty pid data rest hlive
  have hs := fun ty pid data rest => notifyThen_storage mq ty pid data rest hlive
  simp only [responses] at hr
  obtain ⟨idParam, bindCategory, bindProduct, bindImage, bindAttribute⟩ := rq
  obtain ⟨existsRow, beginTx, exec, rollback, commit⟩ := db
  cases h
  · refine withMetric_congr _ _ _ _ ?_ ?_ <;> cases bindCategory <;> cases exec <;>
      simp [responses, Effect.response, Effect.isStorage, notifyThen_disabled, hr, hs]
  · refine withMetric_congr _ _ _ _ ?_ ?_ <;> cases bindProduct <;>
      rcases existsRow with _ | _ | _ <;> cases beginTx <;> cases exec <;> cases rollback <;>
      simp [responses, Effect.response, Effect.isStorage, notifyThen_disabled, hr, hs]
  · refine withMetric_congr _ _ _ _ ?_ ?_ <;> cases idParam <;> cases bindProduct <;>
      cases beginTx <;> cases exec <;> cases rollback <;> cases commit <;>
      simp [responses, Effect.response, Effect.isStorage, notifyThen_disabled, hr, hs]
  · refine withMetric_congr _ _ _ _ ?_ ?_ <;> cases idParam <;> cases exec <;>
      simp [responses, Effect.response, Effect.isStorage, notifyThen_disabled, hr, hs]
  · refine withMetric_congr _ _ _ _ ?_ ?_ <;> cases idParam <;> cases bindImage <;>
      rcases existsRow with _ | _ | _ <;> cases exec <;>
      simp [responses, Effect.response, Effect.isStorage, notifyThen_disabled, hr, hs]
  · refine withMetric_congr _ _ _ _ ?_ ?_ <;> cases idParam <;> cases bindAttribute <;>
      rcases existsRow with _ | _ | _ <;> cases exec <;>
      simp [responses, Effect.response, Effect.isStorage, notifyThen_disabled, hr, hs]

/-- A handle that start-up hands to the controllers has its connection and its channel
set. -/
theorem mainMessaging_handle_live (w : Dialer) (t : Topology) (cfg : Config) (rmq : RabbitMQ)
    (h : (mainMessaging w t cfg).rabbitMQ = some rmq) :
    rmq.Channel ≠ none ∧ rmq.Conn ≠ none := by
  unfold mainMessaging at h
  split at h
  · simp at h
  · simp at h
  · rename_i r hN
    dsimp only at h
    split at h
    · simp at h
    · simp at h
    · simp only [Option.some.injEq] at h
      subst h
      unfold NewRabbitMQ at hN
      split at hN
      · simp at hN
      · split at hN
        · dsimp only at hN
          split at hN <;> simp at hN
        · simp only [Prod.mk.injEq, Option.some.injEq, and_true] at hN
          subst hN
          simp

/-- With messaging disabled a handler run does not depend on the rest of the messaging
environment. -/
theorem handler_run_disabled (h : Handler) (rq : Request) (db : Storage) (mq mq' : Messaging) :
    h.run rq db { mq with rabbitMQ := none } = h.run rq db { mq' with rabbitMQ := none } := by
  cases h <;>
    simp only [Handler.run, CreateCategory, CreateProduct, UpdateProduct, DeleteProduct,
      AddProductImage, AddProductAttribute, notifyThen_disabled]

/-- C9: for every start-up outcome, every mutation handler and every request, two runs
that see the broker handle start-up left and the same database outcomes, and differ in
anything else of the messaging environment (whether serialisation succeeds, what
`PublishEvent` returns, the clock, the random bytes), write the same statuses and bodies
to the client and make the same database calls; `sendProductEvent` returns, with no
value, and none of its effects is a database call. -/
theorem response_independent_of_publish_outcome (w : Dialer) (t : Topology) (cfg : Config)
    (h : Handler) (rq : Request) (db : Storage) (mq mq' : Messaging)
    (hboot : mq.rabbitMQ = (mainMessaging w t cfg).rabbitMQ)
    (hsame : mq'.rabbitMQ = mq.rabbitMQ) :
    responses (h.run rq db mq) = responses (h.run rq db mq') ∧
    (h.run rq db mq).filter Effect.isStorage = (h.run rq db mq').filter Effect.isStorage ∧
    ∀ eventType productID data,
      (sendProductEvent mq eventType productID data).result = some () ∧
      (sendProductEvent mq eventType productID data).trace.filter Effect.isStorage = [] := by
  have hlive : ∀ rmq, mq.rabbitMQ = some rmq → rmq.Channel ≠ none := by
    intro rmq hr
    exact (mainMessaging_handle_live w t cfg rmq (hboot ▸ hr)).1
  have hlive' : ∀ rmq, mq'.rabbitMQ = some rmq → rmq.Channel ≠ none := by
    intro rmq hr
    exact hlive rmq (hsame ▸ hr)
  have h1 := handler_run_messaging_free h rq db mq hlive
  have h2 := handler_run_messaging_free h rq db mq' hlive'
  have h3 := handler_run_disabled h rq db mq mq'
  refine ⟨?_, ?_, ?_⟩
  · rw [h1.1, h2.1, h3]
  · rw [h1.2, h2.2, h3]
  · intro eventType productID data
    refine ⟨sendProductEvent_returns mq eventType productID data hlive, ?_⟩
    simp only [List.filter_eq_nil_iff]
    intro e he
    simp [(sendProductEvent_effects mq eventType productID data e he).1]

/-- C9 at a concrete pair of runs of `DeleteProduct` after a healthy start-up: in one the
event is serialised and published, in the other serialisation fails and the broker would
refuse the publish; both write `200 Product deleted` twice. -/
theorem response_independent_of_publish_outcome_witness :
    sampleMessaging.rabbitMQ = (mainMessaging healthyDialer healthyTopology sampleCfg).rabbitMQ ∧
    ({ sampleMessaging with codec := failingCodec, publishErr := some "connection reset" } :
      Messaging).rabbitMQ = sampleMessaging.rabbitMQ ∧
    responses (Handler.deleteProduct.run sampleRequest sampleStorage sampleMessaging)
      = responses (Handler.deleteProduct.run sampleRequest sampleStorage
          { sampleMessaging with codec := failingCodec, publishErr := some "connection reset" }) ∧
    responses (Handler.deleteProduct.run sampleRequest sampleStorage sampleMessaging)
      = [(200, .message "Product deleted"), (200, .message "Product deleted")] :=
  ⟨rfl, rfl,
    (response_independent_of_publish_outcome healthyDialer healthyTopology sampleCfg
      Handler.deleteProduct sampleRequest sampleStorage sampleMessaging _ rfl rfl).1,
    by decide⟩

/-- C2 at a concrete request: `CreateProduct` with a valid body, an existing category, a
transaction that begins and an insert that succeeds publishes the `product_created`
event although no `tx.Commit()` call occurs anywhere in the run. -/
theorem CreateProduct_publishes_uncommitted :
    (CreateProduct sampleRequest sampleStorage sampleMessaging).any Effect.isPublish = true ∧
    (CreateProduct sampleRequest sampleStorage sampleMessaging).any Effect.isCommit = false := by
  constructor <;> decide

/-- The handler `CreateProduct` never calls `tx.Commit()`, whatever the request and the outcomes. -/
theorem CreateProduct_never_commits (rq : Request) (db : Storage) (mq : Messaging) :
    ∀ e ∈ CreateProduct rq db mq, e.isCommit = false := by
  have hsend : ∀ ty pid data rest, (∀ e ∈ rest, Effect.isCommit e = false) →
      ∀ e ∈ notifyThen mq ty pid data rest, Effect.isCommit e = false := by
    intro ty pid data rest hrest e he
    unfold notifyThen at he
    have hst := sendProductEvent_effects mq ty pid data
    cases h1 : mq.rabbitMQ with
    | none =>
      rw [h1] at he
      exact hrest e he
    | some rmq =>
      rw [h1] at he
      have hnot : ∀ x ∈ (sendProductEvent mq ty pid data).trace, Effect.isCommit x = false := by
        intro x hx
        have := (hst x hx).1
        cases x <;> simp_all [Effect.isStorage, Effect.isCommit]
      cases h2 : (sendProductEvent mq ty pid data).result with
      | none =>
        simp only [h2] at he
        exact hnot e he
      | some u =>
        simp only [h2, List.mem_append] at he
        rcases he with he | he
        · exact hnot e he
        · exact hrest e he
  obtain ⟨idParam, bindCategory, bindProduct, bindImage, bindAttribute⟩ := rq
  obtain ⟨existsRow, beginTx, exec, rollback, commit⟩ := db
  simp only [CreateProduct, withMetric]
  cases bindProduct <;> rcases existsRow with _ | _ | _ <;> cases beginTx <;> cases exec <;>
    cases rollback <;>
    simp only [List.forall_mem_append, List.forall_mem_cons] <;>
    (repeat' apply And.intro) <;>
    first
      | rfl
      | (intro x hx; cases hx)
      | exact hsend _ _ _ _ (by intro x hx; simp only [List.mem_singleton] at hx; subst hx; rfl)

/-- In `UpdateProduct`, the sibling of `CreateProduct`, a publish occurs only in runs
where `tx.Commit()` was called before it and returned nil. -/
theorem UpdateProduct_publish_after_commit (rq : Request) (db : Storage) (mq : Messaging)
    (h : ∃ e ∈ UpdateProduct rq db mq, e.isPublish = true) :
    db.commit = none ∧
    ∃ pre post, UpdateProduct rq db mq = pre ++ Effect.txCommit :: post ∧
      ∀ e ∈ pre, e.isPublish = false := by
  obtain ⟨idParam, bindCategory, bindProduct, bindImage, bindAttribute⟩ := rq
  obtain ⟨existsRow, beginTx, exec, rollback, commit⟩ := db
  simp only [UpdateProduct, withMetric] at h ⊢
  cases idParam with
  | error err => simp [Effect.isPublish] at h
  | ok productID =>
    cases bindProduct with
    | error err => simp [Effect.isPublish] at h
    | ok product =>
      cases beginTx with
      | some err => simp [Effect.isPublish] at h
      | none =>
        cases exec with
        | error err => cases rollback <;> simp [Effect.isPublish] at h
        | ok n =>
          cases commit with
          | some err => simp [Effect.isPublish] at h
          | none =>
            refine ⟨rfl, [.dbBegin, .txExec "UPDATE products SET ... WHERE id = ?"], _, rfl, ?_⟩
            simp [Effect.isPublish]

/-- In every mutation handler a publish occurs only in runs where the `Exec` call of the
mutation returned no error. -/
theorem publish_only_after_exec_succeeded (h : Handler) (rq : Request) (db : Storage)
    (mq : Messaging) (hp : ∃ e ∈ h.run rq db mq, e.isPublish = true) :
    ∃ n, db.exec = .ok n := by
  obtain ⟨idParam, bindCategory, bindProduct, bindImage, bindAttribute⟩ := rq
  obtain ⟨existsRow, beginTx, exec, rollback, commit⟩ := db
  cases exec with
  | ok n => exact ⟨n, rfl⟩
  | error err =>
    exfalso
    obtain ⟨e, he, hpub⟩ := hp
    revert e
    simp only [imp_false, Bool.not_eq_true]
    cases h <;>
      simp only [Handler.run, CreateCategory, CreateProduct, UpdateProduct, DeleteProduct,
        AddProductImage, AddProductAttribute, withMetric]
    · cases bindCategory <;>
        simp only [List.forall_mem_append, List.forall_mem_cons] <;>
        (repeat' apply And.intro) <;> first | rfl | (intro x hx; cases hx)
    · cases bindProduct <;> rcases existsRow with _ | _ | _ <;> cases beginTx <;>
        cases rollback <;>
        simp only [List.forall_mem_append, List.forall_mem_cons] <;>
        (repeat' apply And.intro) <;> first | rfl | (intro x hx; cases hx)
    · cases idParam <;> cases bindProduct <;> cases beginTx <;> cases rollback <;>
        simp only [List.forall_mem_append, List.forall_mem_cons] <;>
        (repeat' apply And.intro) <;> first | rfl | (intro x hx; cases hx)
    · cases idParam <;>
        simp only [List.forall_mem_append, List.forall_mem_cons] <;>
        (repeat' apply And.intro) <;> first | rfl | (intro x hx; cases hx)
    · cases idParam <;> cases bindImage <;> rcases existsRow with _ | _ | _ <;>
        simp only [List.forall_mem_append, List.forall_mem_cons] <;>
        (repeat' apply And.intro) <;> first | rfl | (intro x hx; cases hx)
    · cases idParam <;> cases bindAttribute <;> rcases existsRow with _ | _ | _ <;>
        simp only [List.forall_mem_append, List.forall_mem_cons] <;>
        (repeat' apply And.intro) <;> first | rfl | (intro x hx; cases hx)

/-- C5: for every event type, product id and data value (and every event id and clock
reading), the event built by `sendProductEvent` has at most one of the payload fields
`ProductData`, `CategoryID`, `ImageData`, `Attribute` different from its zero value, and a
field that is set is the one belonging to the event type: `ProductData` only for
`product_created` and `product_updated`, `CategoryID` only for `category_created`,
`ImageData` only for `image_added`, `Attribute` only for `attribute_added`. -/
theorem builtEvent_payload_agrees (eventID : String) (now : Time) (eventType : String)
    (productID : Int) (data : Data) :
    ((builtEvent eventID now eventType productID data).ProductData ≠ Product.zero →
      eventType = EventProductCreated ∨ eventType = EventProductUpdated) ∧
    ((builtEvent eventID now eventType productID data).CategoryID ≠ 0 →
      eventType = EventCategoryCreated) ∧
    ((builtEvent eventID now eventType productID data).ImageData ≠ ProductImage.zero →
      eventType = EventImageAdded) ∧
    ((builtEvent eventID now eventType productID data).Attribute ≠ ProductAttribute.zero →
      eventType = EventAttributeAdded) ∧
    [decide ((builtEvent eventID now eventType productID data).ProductData ≠ Product.zero),
      decide ((builtEvent eventID now eventType productID data).CategoryID ≠ 0),
      decide ((builtEvent eventID now eventType productID data).ImageData ≠ ProductImage.zero),
      decide ((builtEvent eventID now eventType productID data).Attribute
        ≠ ProductAttribute.zero)].count true ≤ 1 := by
  by_cases h1 : eventType = EventProductCreated
  · subst h1
    cases data <;>
      simp [builtEvent, EventProductCreated, EventProductUpdated, EventCategoryCreated,
        EventImageAdded, EventAttributeAdded, ProductEvent.zero, List.count_cons]
    split_ifs <;> simp
  by_cases h2 : eventType = EventProductUpdated
  · subst h2
    cases data <;>
      simp [builtEvent, EventProductCreated, EventProductUpdated, EventCategoryCreated,
        EventImageAdded, EventAttributeAdded, ProductEvent.zero, List.count_cons]
    split_ifs <;> simp
  by_cases h3 : eventType = EventCategoryCreated
  · subst h3
    cases data <;>
      simp [builtEvent, EventProductCreated, EventProductUpdated, EventCategoryCreated,
        EventImageAdded, EventAttributeAdded, ProductEvent.zero, List.count_cons]
    split_ifs <;> simp
  by_cases h4 : eventType = EventImageAdded
  · subst h4
    cases data <;>
      simp [builtEvent, EventProductCreated, EventProductUpdated, EventCategoryCreated,
        EventImageAdded, EventAttributeAdded, ProductEvent.zero, List.count_cons]
    split_ifs <;> simp
  by_cases h5 : eventType = EventAttributeAdded
  · subst h5
    cases data <;>
      simp [builtEvent, EventProductCreated, EventProductUpdated, EventCategoryCreated,
        EventImageAdded, EventAttributeAdded, ProductEvent.zero, List.count_cons]
    split_ifs <;> simp
  simp [builtEvent, h1, h2, h3, h4, h5, ProductEvent.zero, List.count_cons]

/-! ## Start-up -/

/-- C10: if `NewRabbitMQ` returns an error, or returns a handle on which `Setup` returns
an error, then the messaging block of `main` never calls `SetRabbitMQ` and never starts
the consumer, and the controllers' handle is nil afterwards; and with that handle
`sendProductEvent` returns without performing any effect (it reads neither the random
source nor the clock, so builds no event, writes no log line and publishes nothing), for
every event type, product id, payload and codec. -/
theorem messaging_disabled_on_startup_error (w : Dialer) (t : Topology) (cfg : Config)
    (h : (∃ err, (NewRabbitMQ w cfg).2 = some err) ∨
      ∃ rmq err, NewRabbitMQ w cfg = (some rmq, none) ∧
        (rmq.Setup t).result = some (some err)) :
    (∀ e ∈ (mainMessaging w t cfg).trace,
      e.isSetRabbitMQ = false ∧ e.isConsumerStart = false) ∧
    (mainMessaging w t cfg).rabbitMQ = none ∧
    ∀ (mq : Messaging) (eventType : String) (productID : Int) (data : Data),
      mq.rabbitMQ = (mainMessaging w t cfg).rabbitMQ →
      (sendProductEvent mq eventType productID data).trace = [] ∧
      (sendProductEvent mq eventType productID data).result = some () := by
  have key : (∀ e ∈ (mainMessaging w t cfg).trace,
      e.isSetRabbitMQ = false ∧ e.isConsumerStart = false) ∧
      (mainMessaging w t cfg).rabbitMQ = none := by
    rcases h with ⟨err, h⟩ | ⟨rmq, err, hN, hS⟩
    · cases hN : NewRabbitMQ w cfg with
      | mk r e =>
        rw [hN] at h
        simp only at h
        subst h
        simp [mainMessaging, hN, Effect.isSetRabbitMQ, Effect.isConsumerStart]
    · have hch : ∀ e ∈ (rmq.Setup t).trace,
          e.isSetRabbitMQ = false ∧ e.isConsumerStart = false := by
        intro e he
        unfold RabbitMQ.Setup at he
        split at he
        · simp at he
          subst he
          exact ⟨rfl, rfl⟩
        · split at he
          · simp at he
            subst he
            exact ⟨rfl, rfl⟩
          · split at he
            · simp at he
              rcases he with rfl | rfl <;> exact ⟨rfl, rfl⟩
            · split at he <;> simp at he <;>
                rcases he with rfl | rfl | rfl <;> exact ⟨rfl, rfl⟩
      simp only [mainMessaging, hN, hS, List.forall_mem_append, and_true]
      refine ⟨hch, ?_⟩
      intro e he
      simp only [List.mem_singleton] at he
      subst he
      exact ⟨rfl, rfl⟩
  refine ⟨key.1, key.2, ?_⟩
  intro mq eventType productID data hmq
  rw [key.2] at hmq
  simp [sendProductEvent, hmq]

/-- C10 at a concrete start-up: the connection and the channel open, the queue binding is
refused, `Setup` returns that error, and the handle stays nil. -/
theorem messaging_disabled_on_startup_error_witness :
    ((∃ err, (NewRabbitMQ healthyDialer sampleCfg).2 = some err) ∨
      ∃ rmq err, NewRabbitMQ healthyDialer sampleCfg = (some rmq, none) ∧
        (rmq.Setup bindRefused).result = some (some err)) ∧
    (mainMessaging healthyDialer bindRefused sampleCfg).rabbitMQ = none :=
  have h : (∃ err, (NewRabbitMQ healthyDialer sampleCfg).2 = some err) ∨
      ∃ rmq err, NewRabbitMQ healthyDialer sampleCfg = (some rmq, none) ∧
        (rmq.Setup bindRefused).result = some (some err) :=
    Or.inr ⟨sampleRMQ, "access refused", rfl, rfl⟩
  ⟨h, (messaging_disabled_on_startup_error healthyDialer bindRefused sampleCfg h).2.1⟩

/-! ## The wire format -/

/-- The struct tags are their own case folding. -/
theorem foldName_tags :
    foldName "id" = "id" ∧ foldName "name" = "name" ∧ foldName "description" = "description" ∧
    foldName "price" = "price" ∧ foldName "stock" = "stock" ∧
    foldName "category_id" = "category_id" ∧ foldName "sku" = "sku" ∧
    foldName "image_url" = "image_url" ∧ foldName "created_at" = "created_at" ∧
    foldName "updated_at" = "updated_at" ∧ foldName "is_primary" = "is_primary" ∧
    foldName "value" = "value" ∧ foldName "event_id" = "event_id" ∧
    foldName "event_type" = "event_type" ∧ foldName "timestamp" = "timestamp" ∧
    foldName "product_id" = "product_id" ∧ foldName "product_data" = "product_data" ∧
    foldName "image_data" = "image_data" ∧ foldName "attribute_data" = "attribute_data" := by
  decide

/-- An `int` that survives its text form is read back from the literal written for it. -/
theorem decodeInt_formatInt (c : LeafCodec) (n cur : Int) (h : c.intOK n = true) :
    decodeInt c (.num (c.formatInt n)) cur = .ok n := by
  simp only [LeafCodec.intOK, beq_iff_eq] at h
  simp [decodeInt, h]

/-- A `float64` that survives its text form is marshalled and read back unchanged. -/
theorem marshalFloat_decodeFloat (c : LeafCodec) (f cur : Float64) (h : c.floatOK f = true) :
    ∃ v, marshalFloat c f = .ok v ∧ decodeFloat c v cur = .ok f := by
  simp only [LeafCodec.floatOK, Bool.and_eq_true, Bool.not_eq_true', beq_iff_eq] at h
  exact ⟨.num (c.formatFloat f), by simp [marshalFloat, h.1], by simp [decodeFloat, h.2]⟩

/-- A time that survives its text form is marshalled and read back as its wall-clock
part. -/
theorem marshalTime_decodeTime (c : LeafCodec) (t cur : Time) (h : c.timeOK t = true) :
    ∃ v, marshalTime c t = .ok v ∧ decodeTime c v cur = .ok t.wall := by
  unfold LeafCodec.timeOK at h
  cases hf : c.formatTime t with
  | error err => simp [hf] at h
  | ok s =>
    simp only [hf, beq_iff_eq] at h
    exact ⟨.str s, by simp [marshalTime, hf], by simp [decodeTime, h]⟩

/-- A `ProductImage` is read back unchanged from what it marshals to, into any image. -/
theorem marshalImage_decodeImage (c : LeafCodec) (i cur : ProductImage)
    (h : c.intOK i.ID = true) : decodeImage c (marshalImage c i) cur = .ok i := by
  have h1 := decodeInt_formatInt c i.ID cur.ID h
  obtain ⟨t1, t2, t3, t4, t5, t6, t7, t8, t9, t10, t11, t12, t13, t14, t15, t16, t17, t18,
    t19⟩ := foldName_tags
  simp [decodeImage, marshalImage, List.foldlM, ProductImage.setField, t1, t8, t11, h1,
    decodeString, decodeBool, Except.map, bind, Except.bind, pure, Except.pure]

/-- A `Product` is read back from what it marshals to, into any product, with the
monotonic readings of its times dropped. -/
theorem marshalProduct_decodeProduct (c : LeafCodec) (p cur : Product)
    (h : p.Encodable c = true) :
    ∃ v, marshalProduct c p = .ok v ∧ decodeProduct c v cur = .ok p.wall := by
  simp only [Product.Encodable, Bool.and_eq_true] at h
  obtain ⟨⟨⟨⟨⟨hid, hprice⟩, hstock⟩, hcat⟩, hcreated⟩, hupdated⟩ := h
  obtain ⟨vp, hp1, hp2⟩ := marshalFloat_decodeFloat c p.Price cur.Price hprice
  obtain ⟨vc, hc1, hc2⟩ := marshalTime_decodeTime c p.CreatedAt cur.CreatedAt hcreated
  obtain ⟨vu, hu1, hu2⟩ := marshalTime_decodeTime c p.UpdatedAt cur.UpdatedAt hupdated
  have i1 := decodeInt_formatInt c p.ID cur.ID hid
  have i2 := decodeInt_formatInt c p.Stock cur.Stock hstock
  have i3 := decodeInt_formatInt c p.CategoryID cur.CategoryID hcat
  obtain ⟨t1, t2, t3, t4, t5, t6, t7, t8, t9, t10, t11, t12, t13, t14, t15, t16, t17, t18,
    t19⟩ := foldName_tags
  refine ⟨_, by simp only [marshalProduct, hp1, hc1, hu1]; rfl, ?_⟩
  simp [decodeProduct, List.foldlM, Product.setField, t1, t2, t3, t4, t5, t6, t7, t8, t9, t10,
    i1, i2, i3, hp2, hc2, hu2, decodeString, Except.map, bind, Except.bind, pure, Except.pure,
    Product.wall]
/-- A `ProductAttribute` is read back unchanged from what it marshals to. -/
theorem marshalAttribute_decodeAttribute (c : LeafCodec) (a cur : ProductAttribute)
    (h : c.intOK a.ID = true) : decodeAttribute c (marshalAttribute c a) cur = .ok a := by
  have h1 := decodeInt_formatInt c a.ID cur.ID h
  obtain ⟨t1, t2, t3, t4, t5, t6, t7, t8, t9, t10, t11, t12, t13, t14, t15, t16, t17, t18,
    t19⟩ := foldName_tags
  simp [decodeAttribute, marshalAttribute, List.foldlM, ProductAttribute.setField, t1, t2, t12,
    h1, decodeString, Except.map, bind, Except.bind, pure, Except.pure]

/-- A valid event is serialised, and the consumer decodes the result to the event with
the monotonic readings of its times dropped. -/
theorem ToJSON_Unmarshal_wall (c : LeafCodec) (e : ProductEvent) (h : e.Encodable c = true) :
    ∃ body, e.ToJSON c = .ok body ∧ Unmarshal c body = .ok e.wall := by
  simp only [ProductEvent.Encodable, Bool.and_eq_true, Bool.or_eq_true, beq_iff_eq] at h
  obtain ⟨⟨⟨⟨⟨hts, hpid⟩, hpd⟩, hcat⟩, himg⟩, hattr⟩ := h
  obtain ⟨vt, ht1, ht2⟩ := marshalTime_decodeTime c e.Timestamp Time.zero hts
  obtain ⟨vp, hp1, hp2⟩ := marshalProduct_decodeProduct c e.ProductData Product.zero hpd
  have i1 := decodeInt_formatInt c e.ProductID 0 hpid
  have i2 := marshalImage_decodeImage c e.ImageData ProductImage.zero himg
  have i3 := marshalAttribute_decodeAttribute c e.Attribute ProductAttribute.zero hattr
  obtain ⟨t1, t2, t3, t4, t5, t6, t7, t8, t9, t10, t11, t12, t13, t14, t15, t16, t17, t18,
    t19⟩ := foldName_tags
  refine ⟨_, by simp only [ProductEvent.ToJSON, ht1, hp1]; rfl, ?_⟩
  by_cases hz : e.CategoryID = 0
  · simp [Unmarshal, hz, List.foldlM, ProductEvent.setField, t6, t13, t14, t15, t16, t17, t18,
      t19, i1, i2, i3, ht2, hp2, decodeString, Except.map, bind, Except.bind, pure,
      Except.pure, ProductEvent.wall, ProductEvent.zero]
  · have i4 := decodeInt_formatInt c e.CategoryID 0 (hcat.resolve_left hz)
    simp [Unmarshal, hz, List.foldlM, ProductEvent.setField, t6, t13, t14, t15, t16, t17, t18,
      t19, i1, i2, i3, i4, ht2, hp2, decodeString, Except.map, bind, Except.bind, pure,
      Except.pure, ProductEvent.wall, ProductEvent.zero]
/-- C4: for every valid event (so for each of the six event kinds with any payload whose
numbers and times survive their text form), `ToJSON` succeeds, the consumer's decoder
succeeds on the bytes it produced, and the decoded event equals the original in
`event_id`, `event_type`, `timestamp` (same instant, same zone), `product_id` and every
payload field; the times inside `product_data` agree as instants. -/
theorem ToJSON_Unmarshal_roundtrip (c : LeafCodec) (e : ProductEvent)
    (h : e.Encodable c = true) :
    ∃ body decoded, e.ToJSON c = .ok body ∧ Unmarshal c body = .ok decoded ∧
      decoded.EventID = e.EventID ∧ decoded.EventType = e.EventType ∧
      decoded.Timestamp.unixNano = e.Timestamp.unixNano ∧
      decoded.Timestamp.offset = e.Timestamp.offset ∧
      decoded.ProductID = e.ProductID ∧ decoded.ProductData = e.ProductData.wall ∧
      decoded.CategoryID = e.CategoryID ∧ decoded.ImageData = e.ImageData ∧
      decoded.Attribute = e.Attribute := by
  obtain ⟨body, h1, h2⟩ := ToJSON_Unmarshal_wall c e h
  exact ⟨body, e.wall, h1, h2, rfl, rfl, rfl, rfl, rfl, rfl, rfl, rfl, rfl⟩

/-- C4 at the `product_created` event of the Widget scenario: it is valid for the sample
codec, and the decoded event carries the name Widget under product id 42. -/
theorem ToJSON_Unmarshal_roundtrip_witness :
    widgetCreated.Encodable sampleCodec = true ∧
    ∃ body decoded, widgetCreated.ToJSON sampleCodec = .ok body ∧
      Unmarshal sampleCodec body = .ok decoded ∧
      decoded.EventType = "product_created" ∧ decoded.ProductID = 42 ∧
      decoded.ProductData.Name = "Widget" :=
  have h : widgetCreated.Encodable sampleCodec = true := by decide
  ⟨h, by
    obtain ⟨body, decoded, h1, h2, _, h4, _, _, h5, h6, _⟩ :=
      ToJSON_Unmarshal_roundtrip sampleCodec widgetCreated h
    exact ⟨body, decoded, h1, h2, by rw [h4]; rfl, by rw [h5]; rfl, by rw [h6]; rfl⟩⟩

/-! ## The consumer loop -/

/-- The loop treats a concatenation of deliveries piece by piece. -/
theorem consumerLoop_append (c : LeafCodec) (a b : List Delivery) :
    consumerLoop c (a ++ b) = consumerLoop c a ++ consumerLoop c b := by
  induction a with
  | nil => rfl
  | cons m rest ih => simp [consumerLoop, ih]

/-- Processing a message writes exactly one log line and nothing else. -/
theorem processProductMessage_one_log (c : LeafCodec) (msg : Delivery) :
    ∃ line, processProductMessage c msg = [.log line] := by
  unfold processProductMessage
  split
  · exact ⟨_, rfl⟩
  · split_ifs <;> exact ⟨_, rfl⟩

/-- C6: for every delivery whose body fails to decode, anywhere in the stream, the
consumer writes the one log line `Failed to unmarshal event: <error>` (no handler line),
acknowledges that delivery once, with `multiple` false, and goes on with the deliveries
after it as it would have from the start. -/
theorem decode_failure_logged_and_acked (c : LeafCodec) (pre post : List Delivery)
    (msg : Delivery) (err : String) (h : Unmarshal c msg.Body = .error err) :
    processProductMessage c msg = [.log ("Failed to unmarshal event: " ++ err)] ∧
    consumerLoop c (pre ++ msg :: post)
      = consumerLoop c pre
        ++ [.log ("Failed to unmarshal event: " ++ err), .ack msg.DeliveryTag false]
        ++ consumerLoop c post := by
  have hp : processProductMessage c msg = [.log ("Failed to unmarshal event: " ++ err)] := by
    simp [processProductMessage, h]
  refine ⟨hp, ?_⟩
  rw [consumerLoop_append]
  simp [consumerLoop, hp]

/-- C6 at a concrete stream: a body that is not JSON between two other deliveries. -/
theorem decode_failure_logged_and_acked_witness :
    Unmarshal sampleCodec poisonDelivery.Body
      = .error "invalid character looking for beginning of value" ∧
    consumerLoop sampleCodec ([deletedDelivery] ++ poisonDelivery :: [futureDelivery])
      = consumerLoop sampleCodec [deletedDelivery]
        ++ [.log ("Failed to unmarshal event: "
              ++ "invalid character looking for beginning of value"),
            .ack poisonDelivery.DeliveryTag false]
        ++ consumerLoop sampleCodec [futureDelivery] :=
  ⟨rfl,
    (decode_failure_logged_and_acked sampleCodec [deletedDelivery] [futureDelivery]
      poisonDelivery "invalid character looking for beginning of value" rfl).2⟩

/-- C7: for every delivery that decodes to an event whose `event_type` is none of the six
constants, anywhere in the stream, `processProductMessage` returns after the one log line
`Unknown event type: <event_type>`, the delivery is acknowledged, and the deliveries
before and after it are handled exactly as in the stream without it. -/
theorem unknown_event_logged_and_skipped (c : LeafCodec) (pre post : List Delivery)
    (msg : Delivery) (event : ProductEvent) (h : Unmarshal c msg.Body = .ok event)
    (hunknown : event.EventType ∉ knownEventTypes) :
    processProductMessage c msg = [.log ("Unknown event type: " ++ event.EventType)] ∧
    consumerLoop c (pre ++ msg :: post)
      = consumerLoop c pre
        ++ [.log ("Unknown event type: " ++ event.EventType), .ack msg.DeliveryTag false]
        ++ consumerLoop c post ∧
    consumerLoop c (pre ++ post) = consumerLoop c pre ++ consumerLoop c post := by
  have hp : processProductMessage c msg
      = [.log ("Unknown event type: " ++ event.EventType)] := by
    simp only [knownEventTypes, List.mem_cons, List.mem_singleton, List.not_mem_nil,
      not_or, or_false] at hunknown
    obtain ⟨h1, h2, h3, h4, h5, h6⟩ := hunknown
    simp [processProductMessage, h, h1, h2, h3, h4, h5, h6]
  refine ⟨hp, ?_, consumerLoop_append c pre post⟩
  rw [consumerLoop_append]
  simp [consumerLoop, hp]

/-- C7 at a concrete stream: an event of kind `product_archived` before a
`product_deleted` event. -/
theorem unknown_event_logged_and_skipped_witness :
    (∃ event, Unmarshal sampleCodec futureDelivery.Body = .ok event ∧
      event.EventType = "product_archived" ∧ event.EventType ∉ knownEventTypes) ∧
    consumerLoop sampleCodec ([] ++ futureDelivery :: [deletedDelivery])
      = consumerLoop sampleCodec []
        ++ [.log ("Unknown event type: " ++ "product_archived"), .ack 4 false]
        ++ consumerLoop sampleCodec [deletedDelivery] :=
  have hdec : Unmarshal sampleCodec futureDelivery.Body
      = .ok { ProductEvent.zero with EventID := "ab", EventType := "product_archived" } := rfl
  ⟨⟨_, hdec, rfl, by decide⟩,
    (unknown_event_logged_and_skipped sampleCodec [] [deletedDelivery] futureDelivery _ hdec
      (by decide)).2.1⟩

/-- C8: for every finite sequence of deliveries the loop acknowledges them once each, in
delivery order, with `multiple` false; and for every delivery `msg` of a stream, the run
is: the whole handling of the deliveries before it (all of them acknowledged), then the
effects of `processProductMessage` on `msg` (one log line, no acknowledgment), then the
acknowledgment of `msg`, then the handling of the deliveries after it. -/
theorem consumerLoop_sequential (c : LeafCodec) (msgs pre post : List Delivery)
    (msg : Delivery) :
    (consumerLoop c msgs).filter Effect.isAck
      = msgs.map (fun m => Effect.ack m.DeliveryTag false) ∧
    consumerLoop c (pre ++ msg :: post)
      = consumerLoop c pre ++ processProductMessage c msg
        ++ [.ack msg.DeliveryTag false] ++ consumerLoop c post ∧
    ((consumerLoop c pre).filter Effect.isAck).length = pre.length ∧
    (processProductMessage c msg).length = 1 ∧
    (processProductMessage c msg).filter Effect.isAck = [] := by
  have hacks : ∀ l : List Delivery, (consumerLoop c l).filter Effect.isAck
      = l.map (fun m => Effect.ack m.DeliveryTag false) := by
    intro l
    induction l with
    | nil => rfl
    | cons m rest ih =>
      obtain ⟨line, hl⟩ := processProductMessage_one_log c m
      simp [consumerLoop, hl, List.filter_cons, Effect.isAck, ih]
  obtain ⟨line, hl⟩ := processProductMessage_one_log c msg
  refine ⟨hacks msgs, ?_, ?_, ?_, ?_⟩
  · rw [consumerLoop_append]
    simp [consumerLoop]
  · rw [hacks pre, List.length_map]
  · rw [hl]
    rfl
  · rw [hl]
    rfl

/-! ## Topology and publisher -/

/-- C14: on a handle whose channel is set, when the three broker calls succeed `Setup`
issues exactly three operations, in this order, and returns nil: declare exchange
`Cfg.ProductExchange` of type `direct`, durable, not auto-delete; declare queue
`Cfg.ProductQueue`, durable, not auto-delete, not exclusive; bind that queue to that
exchange with the empty routing key. When the exchange declaration fails it is the only
operation, when the queue declaration fails the binding is not issued, and in each case
`Setup` returns the error of the failed call. -/
theorem Setup_three_operations_in_order (conn : Option Connection) (ch : Channel)
    (cfg : Config) (err : String) (q b : Option String) :
    RabbitMQ.Setup ⟨none, none, none⟩ { Conn := conn, Channel := some ch, Cfg := cfg }
      = ⟨[.exchangeDeclare ch cfg.ProductExchange "direct" true false false false,
          .queueDeclare ch cfg.ProductQueue true false false false,
          .queueBind ch cfg.ProductQueue "" cfg.ProductExchange false], some none⟩ ∧
    RabbitMQ.Setup ⟨some err, q, b⟩ { Conn := conn, Channel := some ch, Cfg := cfg }
      = ⟨[.exchangeDeclare ch cfg.ProductExchange "direct" true false false false],
          some (some err)⟩ ∧
    RabbitMQ.Setup ⟨none, some err, b⟩ { Conn := conn, Channel := some ch, Cfg := cfg }
      = ⟨[.exchangeDeclare ch cfg.ProductExchange "direct" true false false false,
          .queueDeclare ch cfg.ProductQueue true false false false], some (some err)⟩ ∧
    RabbitMQ.Setup ⟨none, none, some err⟩ { Conn := conn, Channel := some ch, Cfg := cfg }
      = ⟨[.exchangeDeclare ch cfg.ProductExchange "direct" true false false false,
          .queueDeclare ch cfg.ProductQueue true false false false,
          .queueBind ch cfg.ProductQueue "" cfg.ProductExchange false], some (some err)⟩ :=
  ⟨rfl, rfl, rfl, rfl⟩

/-- C15: on a handle whose channel is set, for every body `PublishEvent` makes exactly
one `Channel.Publish` call: to the exchange `Cfg.ProductExchange`, with the empty routing
key, not mandatory, not immediate, carrying the body unchanged, delivery mode persistent
and content type `application/json`; it returns what `Channel.Publish` returned. The
exchange is the one `Setup` declares and binds the queue to. -/
theorem PublishEvent_one_persistent_message (conn : Option Connection) (ch : Channel)
    (cfg : Config) (now : Time) (publishErr : Option String) (body : Body) :
    RabbitMQ.PublishEvent { Conn := conn, Channel := some ch, Cfg := cfg } now publishErr body
      = ⟨[.timeNow,
          .publish ch cfg.ProductExchange "" false false
            { DeliveryMode := 2, ContentType := "application/json", Body := body,
              Timestamp := now }],
         some publishErr⟩ ∧
    ((RabbitMQ.PublishEvent { Conn := conn, Channel := some ch, Cfg := cfg } now publishErr
        body).trace.filter Effect.isPublish).length = 1 ∧
    (RabbitMQ.Setup ⟨none, none, none⟩ { Conn := conn, Channel := some ch, Cfg := cfg }).trace
      = [.exchangeDeclare ch cfg.ProductExchange "direct" true false false false,
         .queueDeclare ch cfg.ProductQueue true false false false,
         .queueBind ch cfg.ProductQueue "" cfg.ProductExchange false] :=
  ⟨rfl, rfl, rfl⟩

/-- C11: for every call of `sendProductEvent` the run contains at most one publish. With
a nil handle it has no effect at all. When serialisation fails there is no publish and
exactly one log line, `Failed to marshal event: <error>`. When the handle has its channel
set and serialisation succeeds there is exactly one publish, of the serialised event,
also when that publish returns an error: then the one log line
`Failed to publish <type> event: <error>` is written and the function returns, with no
second publish; when the publish succeeds nothing is logged. -/
theorem sendProductEvent_publishes_at_most_once (mq : Messaging) (eventType : String)
    (productID : Int) (data : Data) :
    ((sendProductEvent mq eventType productID data).trace.filter Effect.isPublish).length ≤ 1 ∧
    (mq.rabbitMQ = none → (sendProductEvent mq eventType productID data).trace = []) ∧
    (∀ rmq err, mq.rabbitMQ = some rmq →
      (builtEvent (generateEventID mq.randomBytes) mq.now eventType productID data).ToJSON
        mq.codec = .error err →
      (sendProductEvent mq eventType productID data).trace.filter Effect.isPublish = [] ∧
      (sendProductEvent mq eventType productID data).trace.filter Effect.isLog
        = [.log ("Failed to marshal event: " ++ err)] ∧
      (sendProductEvent mq eventType productID data).result = some ()) ∧
    (∀ rmq ch body, mq.rabbitMQ = some rmq → rmq.Channel = some ch →
      (builtEvent (generateEventID mq.randomBytes) mq.now eventType productID data).ToJSON
        mq.codec = .ok body →
      (sendProductEvent mq eventType productID data).trace.filter Effect.isPublish
        = [.publish ch rmq.Cfg.ProductExchange "" false false
            { DeliveryMode := 2, ContentType := "application/json", Body := body,
              Timestamp := mq.publishNow }] ∧
      (sendProductEvent mq eventType productID data).trace.filter Effect.isLog
        = (match mq.publishErr with
          | none => []
          | some err => [.log ("Failed to publish " ++ eventType ++ " event: " ++ err)]) ∧
      (sendProductEvent mq eventType productID data).result = some ()) := by
  refine ⟨?_, ?_, ?_, ?_⟩
  · cases h1 : mq.rabbitMQ with
    | none => simp [sendProductEvent, h1]
    | some rmq =>
      cases h2 : (builtEvent (generateEventID mq.randomBytes) mq.now eventType productID
          data).ToJSON mq.codec with
      | error err => simp [sendProductEvent, h1, h2, Effect.isPublish]
      | ok body =>
        cases h3 : rmq.Channel <;> cases h4 : mq.publishErr <;>
          simp [sendProductEvent, h1, h2, RabbitMQ.PublishEvent, h3, h4, Effect.isPublish]
  · intro h1
    simp [sendProductEvent, h1]
  · intro rmq err h1 h2
    simp [sendProductEvent, h1, h2, Effect.isPublish, Effect.isLog]
  · intro rmq ch body h1 h3 h2
    cases h4 : mq.publishErr <;>
      simp [sendProductEvent, h1, h2, RabbitMQ.PublishEvent, h3, h4, Effect.isPublish,
        Effect.isLog, Persistent]

/-- C11 at a concrete call: the `product_deleted` event for product 42 is serialised, the
broker refuses the publish, and the run has that one publish and the one log line. -/
theorem sendProductEvent_publishes_at_most_once_witness :
    ∃ body,
      (builtEvent (generateEventID sampleMessaging.randomBytes) sampleMessaging.now
        EventProductDeleted 42 .nil).ToJSON sampleCodec = .ok body ∧
      (sendProductEvent { sampleMessaging with publishErr := some "connection reset" }
        EventProductDeleted 42 .nil).trace.filter Effect.isPublish
        = [.publish ⟨7⟩ "product_exchange" "" false false
            { DeliveryMode := 2, ContentType := "application/json", Body := body,
              Timestamp := sampleNow }] ∧
      (sendProductEvent { sampleMessaging with publishErr := some "connection reset" }
        EventProductDeleted 42 .nil).trace.filter Effect.isLog
        = [.log "Failed to publish product_deleted event: connection reset"] :=
  ⟨_, rfl,
    ((sendProductEvent_publishes_at_most_once
      { sampleMessaging with publishErr := some "connection reset" } EventProductDeleted 42
      .nil).2.2.2 sampleRMQ ⟨7⟩ _ rfl rfl rfl).1,
    ((sendProductEvent_publishes_at_most_once
      { sampleMessaging with publishErr := some "connection reset" } EventProductDeleted 42
      .nil).2.2.2 sampleRMQ ⟨7⟩ _ rfl rfl rfl).2.1⟩

/-- The event built for `product_deleted` is the four header fields and nothing else,
whatever the data argument. -/
theorem builtEvent_deleted (eventID : String) (now : Time) (productID : Int) (data : Data) :
    builtEvent eventID now EventProductDeleted productID data
      = { ProductEvent.zero with
          EventID := eventID, EventType := EventProductDeleted, Timestamp := now,
          ProductID := productID } := by
  simp [builtEvent, EventProductCreated, EventProductUpdated, EventProductDeleted,
    EventCategoryCreated, EventImageAdded, EventAttributeAdded]

/-- The event built for `product_created` from a product carries that product. -/
theorem builtEvent_created (eventID : String) (now : Time) (productID : Int)
    (product : Product) :
    builtEvent eventID now EventProductCreated productID (.product product)
      = { ProductEvent.zero with
          EventID := eventID, EventType := EventProductCreated, Timestamp := now,
          ProductID := productID, ProductData := product } := by
  simp [builtEvent]

/-- C12: for every product id, every data argument, every event id and clock reading, the
event `sendProductEvent` builds for `product_deleted` has `event_type` `product_deleted`,
`product_id` equal to the id, and `product_data`, `category_id`, `image_data` and
`attribute_data` at their zero values; and when the event is valid (its clock reading and
integers survive their text form) it is serialised and the consumer decodes an event with
the same `event_type` and `product_id` and the same four zero payload fields. -/
theorem deleted_event_empty_payload (c : LeafCodec) (eventID : String) (now : Time)
    (productID : Int) (data : Data)
    (h : (builtEvent eventID now EventProductDeleted productID data).Encodable c = true) :
    (builtEvent eventID now EventProductDeleted productID data).EventType = "product_deleted" ∧
    (builtEvent eventID now EventProductDeleted productID data).ProductID = productID ∧
    (builtEvent eventID now EventProductDeleted productID data).ProductData = Product.zero ∧
    (builtEvent eventID now EventProductDeleted productID data).CategoryID = 0 ∧
    (builtEvent eventID now EventProductDeleted productID data).ImageData = ProductImage.zero ∧
    (builtEvent eventID now EventProductDeleted productID data).Attribute
      = ProductAttribute.zero ∧
    ∃ body decoded,
      (builtEvent eventID now EventProductDeleted productID data).ToJSON c = .ok body ∧
      Unmarshal c body = .ok decoded ∧
      decoded.EventType = "product_deleted" ∧ decoded.ProductID = productID ∧
      decoded.ProductData = Product.zero ∧ decoded.CategoryID = 0 ∧
      decoded.ImageData = ProductImage.zero ∧ decoded.Attribute = ProductAttribute.zero := by
  obtain ⟨body, h1, h2⟩ := ToJSON_Unmarshal_wall c _ h
  refine ⟨?_, ?_, ?_, ?_, ?_, ?_, body, _, h1, h2, ?_⟩
  all_goals simp only [builtEvent_deleted]
  all_goals first
    | rfl
    | exact ⟨rfl, rfl, rfl, rfl, rfl, rfl⟩

/-- C12 at product 42: the event is valid for the sample codec, and the consumer decodes
`product_deleted` for product 42 with a zero product. -/
theorem deleted_event_empty_payload_witness :
    (builtEvent "00ff" sampleNow EventProductDeleted 42 .nil).Encodable sampleCodec = true ∧
    ∃ body decoded,
      (builtEvent "00ff" sampleNow EventProductDeleted 42 .nil).ToJSON sampleCodec = .ok body ∧
      Unmarshal sampleCodec body = .ok decoded ∧
      decoded.EventType = "product_deleted" ∧ decoded.ProductID = 42 ∧
      decoded.ProductData = Product.zero :=
  have h : (builtEvent "00ff" sampleNow EventProductDeleted 42 .nil).Encodable sampleCodec
      = true := by decide
  ⟨h, by
    obtain ⟨_, _, _, _, _, _, body, decoded, h1, h2, h3, h4, h5, _⟩ :=
      deleted_event_empty_payload sampleCodec "00ff" sampleNow 42 .nil h
    exact ⟨body, decoded, h1, h2, h3, h4, h5⟩⟩

/-- The publishes of the notifying statement are those of `sendProductEvent`, when the
rest of the handler body has none. -/
theorem notifyThen_publishes (mq : Messaging) (eventType : String) (productID : Int)
    (data : Data) (rest : List Effect) (hrest : rest.filter Effect.isPublish = []) :
    (notifyThen mq eventType productID data rest).filter Effect.isPublish
      = (sendProductEvent mq eventType productID data).trace.filter Effect.isPublish := by
  unfold notifyThen
  cases h1 : mq.rabbitMQ with
  | none => simp [hrest, sendProductEvent, h1]
  | some rmq =>
    cases h2 : (sendProductEvent mq eventType productID data).result with
    | none => simp only [h2]
    | some u => simp only [h2, List.filter_append, hrest, List.append_nil]

/-- C13: for every request whose body binds to a product, whose category exists, and
whose insert succeeds with new identifier `n`, the publishes of the `CreateProduct` run are
those of the call `sendProductEvent(EventProductCreated, n, product)` with the product's
`ID` set to `n`; the event that call builds has `event_type` `product_created`,
`product_id` `n` and `product_data` equal to the submitted product with `ID` `n` (so the
submitted name); and when the handle has its channel set and the event is serialised to
`body`, the run publishes exactly that body, once. -/
theorem CreateProduct_event_content (rq : Request) (db : Storage) (mq : Messaging)
    (product : Product) (n : Int) (hbind : rq.bindProduct = .ok product)
    (hexists : db.existsRow = .ok true) (hbegin : db.beginTx = none)
    (hexec : db.exec = .ok n) :
    (CreateProduct rq db mq).filter Effect.isPublish
      = (sendProductEvent mq EventProductCreated n
          (.product { product with ID := n })).trace.filter Effect.isPublish ∧
    (∀ eventID now,
      (builtEvent eventID now EventProductCreated n
        (.product { product with ID := n })).EventType = "product_created" ∧
      (builtEvent eventID now EventProductCreated n
        (.product { product with ID := n })).ProductID = n ∧
      (builtEvent eventID now EventProductCreated n
        (.product { product with ID := n })).ProductData = { product with ID := n } ∧
      (builtEvent eventID now EventProductCreated n
        (.product { product with ID := n })).ProductData.Name = product.Name) ∧
    (∀ rmq ch body, mq.rabbitMQ = some rmq → rmq.Channel = some ch →
      (builtEvent (generateEventID mq.randomBytes) mq.now EventProductCreated n
        (.product { product with ID := n })).ToJSON mq.codec = .ok body →
      (CreateProduct rq db mq).filter Effect.isPublish
        = [.publish ch rmq.Cfg.ProductExchange "" false false
            { DeliveryMode := 2, ContentType := "application/json", Body := body,
              Timestamp := mq.publishNow }]) := by
  have hrun : (CreateProduct rq db mq).filter Effect.isPublish
      = (sendProductEvent mq EventProductCreated n
          (.product { product with ID := n })).trace.filter Effect.isPublish := by
    simp only [CreateProduct, withMetric, hbind, hexists, hbegin, hexec, List.filter_append,
      List.filter_cons, Effect.isPublish]
    simp [notifyThen_publishes, Effect.isPublish]
  refine ⟨hrun, ?_, ?_⟩
  · intro eventID now
    rw [builtEvent_created]
    exact ⟨rfl, rfl, rfl, rfl⟩
  · intro rmq ch body h1 h3 h2
    rw [hrun]
    cases h4 : mq.publishErr <;>
      simp [sendProductEvent, h1, h2, RabbitMQ.PublishEvent, h3, h4, Effect.isPublish,
        Persistent]

/-- C13 at the Widget scenario: the widget is accepted and stored under identifier 42, and
the run publishes once the serialisation of the `product_created` event for product 42
whose payload name is Widget. -/
theorem CreateProduct_event_content_witness :
    sampleRequest.bindProduct = .ok widget ∧ sampleStorage.exec = .ok 42 ∧
    (builtEvent (generateEventID sampleMessaging.randomBytes) sampleMessaging.now
      EventProductCreated 42 (.product { widget with ID := 42 })).ProductData.Name = "Widget" ∧
    ∃ body,
      (builtEvent (generateEventID sampleMessaging.randomBytes) sampleMessaging.now
        EventProductCreated 42 (.product { widget with ID := 42 })).ToJSON sampleCodec
        = .ok body ∧
      (CreateProduct sampleRequest sampleStorage sampleMessaging).filter Effect.isPublish
        = [.publish ⟨7⟩ "product_exchange" "" false false
            { DeliveryMode := 2, ContentType := "application/json", Body := body,
              Timestamp := sampleNow }] :=
  ⟨rfl, rfl,
    ((CreateProduct_event_content sampleRequest sampleStorage sampleMessaging widget 42 rfl
      rfl rfl rfl).2.1 _ _).2.2.2,
    _, rfl,
    (CreateProduct_event_content sampleRequest sampleStorage sampleMessaging widget 42 rfl
      rfl rfl rfl).2.2 sampleRMQ ⟨7⟩ _ rfl rfl rfl⟩

/-! ## Pagination -/

/-- C16 at concrete requests: for the query `page=0&page_size=1000`, `ParsePagination`
returns `Page` 0 and `PageSize` 1000, which break the declared constraints, and the
`OFFSET` computed from them is negative; for `page=abc&page_size=0` it returns `Page` 0
and `PageSize` 0, and `CalculateTotalPages` on a non-empty result with that page size
panics on the division by zero. -/
theorem ParsePagination_unvalidated :
    ParsePagination [("page", "0"), ("page_size", "1000")] = { Page := 0, PageSize := 1000 } ∧
    (ParsePagination [("page", "0"), ("page_size", "1000")]).conforms = false ∧
    paginationOffset (ParsePagination [("page", "0"), ("page_size", "1000")]) = -1000 ∧
    ParsePagination [("page", "abc"), ("page_size", "0")] = { Page := 0, PageSize := 0 } ∧
    CalculateTotalPages 5 (ParsePagination [("page", "abc"), ("page_size", "0")]).PageSize
      = none := by
  decide

/-- The defaults do conform: a request without the two parameters gets page 1 of size
10. -/
theorem ParsePagination_defaults : ParsePagination [] = { Page := 1, PageSize := 10 } ∧
    (ParsePagination []).conforms = true := by
  decide

/-- A value in the range of a 64-bit `int` is not changed by the wrap-around. -/
theorem wrapInt_of_inRange (n : Int) (h1 : -2 ^ 63 ≤ n) (h2 : n < 2 ^ 63) : wrapInt n = n := by
  unfold wrapInt
  norm_num at h1 h2 ⊢
  omega

/-- For a positive total and a positive page size within the range of `int`,
`CalculateTotalPages` returns the quotient, plus one when there is a remainder. -/
theorem CalculateTotalPages_eq (total pageSize : Int) (ht : 1 ≤ total)
    (htmax : total < 2 ^ 63) (hp : 1 ≤ pageSize) :
    CalculateTotalPages total pageSize
      = some (if total % pageSize > 0 then total / pageSize + 1 else total / pageSize) := by
  have hd0 : 0 ≤ total / pageSize := Int.ediv_nonneg (by omega) (by omega)
  have hr0 : 0 ≤ total % pageSize := Int.emod_nonneg _ (by omega)
  have hsum : total % pageSize + pageSize * (total / pageSize) = total :=
    Int.emod_add_ediv total pageSize
  have hmul : total / pageSize ≤ pageSize * (total / pageSize) := by nlinarith
  have hw : wrapInt (total / pageSize) = total / pageSize :=
    wrapInt_of_inRange _ (by norm_num; omega) (by norm_num at htmax ⊢; omega)
  have h1 : total ≠ 0 := by omega
  have h2 : pageSize ≠ 0 := by omega
  unfold CalculateTotalPages
  rw [Int.tdiv_eq_ediv (by omega) (by omega), Int.tmod_eq_emod (by omega) (by omega)]
  simp only [h1, h2, if_false, hw]
  split_ifs with hr
  · rw [wrapInt_of_inRange _ (by norm_num; omega) (by norm_num at htmax ⊢; omega)]
  · rfl
/-- C17: for every total of at least 1 and every page size of at least 1 (both values of
a 64-bit `int`), `CalculateTotalPages` returns a number `p` of pages with
`p * pageSize >= total`, no smaller number has that property (`p` is the ceiling of
`total / pageSize`), and every item `i` of `1..total` lies on a page of `1..p`; and for a
total of 0 it returns 1 for every page size, 0 included. -/
theorem CalculateTotalPages_ceiling (total pageSize : Int) (ht : 1 ≤ total)
    (htmax : total < 2 ^ 63) (hp : 1 ≤ pageSize) :
    (∃ p, CalculateTotalPages total pageSize = some p ∧
      total ≤ p * pageSize ∧ (p - 1) * pageSize < total ∧
      (∀ q : Int, total ≤ q * pageSize → p ≤ q) ∧
      ∀ i : Int, 1 ≤ i → i ≤ total →
        ∃ page, 1 ≤ page ∧ page ≤ p ∧ (page - 1) * pageSize < i ∧ i ≤ page * pageSize) ∧
    ∀ anySize : Int, CalculateTotalPages 0 anySize = some 1 := by
  refine ⟨?_, fun anySize => by simp [CalculateTotalPages]⟩
  have hr0 : 0 ≤ total % pageSize := Int.emod_nonneg _ (by omega)
  have hrlt : total % pageSize < pageSize := Int.emod_lt_of_pos _ (by omega)
  have hsum : total % pageSize + pageSize * (total / pageSize) = total :=
    Int.emod_add_ediv total pageSize
  refine ⟨_, CalculateTotalPages_eq total pageSize ht htmax hp, ?_⟩
  have hup : total ≤ (if total % pageSize > 0 then total / pageSize + 1 else total / pageSize)
      * pageSize := by
    split_ifs with hr <;> nlinarith
  have hlow : ((if total % pageSize > 0 then total / pageSize + 1 else total / pageSize) - 1)
      * pageSize < total := by
    split_ifs with hr <;> nlinarith
  refine ⟨hup, hlow, ?_, ?_⟩
  · intro q hq
    by_contra hlt
    have : q ≤ (if total % pageSize > 0 then total / pageSize + 1 else total / pageSize)
        - 1 := by
      omega
    nlinarith
  · intro i hi1 hi2
    have ir0 : 0 ≤ (i - 1) % pageSize := Int.emod_nonneg _ (by omega)
    have irlt : (i - 1) % pageSize < pageSize := Int.emod_lt_of_pos _ (by omega)
    have isum : (i - 1) % pageSize + pageSize * ((i - 1) / pageSize) = i - 1 :=
      Int.emod_add_ediv (i - 1) pageSize
    have id0 : 0 ≤ (i - 1) / pageSize := Int.ediv_nonneg (by omega) (by omega)
    refine ⟨(i - 1) / pageSize + 1, by omega, ?_, by nlinarith, by nlinarith⟩
    by_contra hlt
    have : (if total % pageSize > 0 then total / pageSize + 1 else total / pageSize)
        ≤ (i - 1) / pageSize := by omega
    nlinarith

/-- C17 at 25 items in pages of 10: three pages. -/
theorem CalculateTotalPages_ceiling_witness :
    (1 : Int) ≤ 25 ∧ (25 : Int) < 2 ^ 63 ∧ (1 : Int) ≤ 10 ∧
    CalculateTotalPages 25 10 = some 3 ∧
    ∃ p, CalculateTotalPages 25 10 = some p ∧ (25 : Int) ≤ p * 10 ∧ (p - 1) * 10 < 25 :=
  ⟨by decide, by decide, by decide, by decide, by
    obtain ⟨⟨p, h1, h2, h3, _⟩, _⟩ :=
      CalculateTotalPages_ceiling 25 10 (by decide) (by decide) (by decide)
    exact ⟨p, h1, h2, h3⟩⟩
end ProductService
